import Mathlib

/-!
# Verification of the CROP auto-update system

A shallow embedding of the two source files of the `trek10inc/crop`
repository that the claims concern:

* `src/crop/autoupdater.py` — the Autoupdate Decision Engine (`handler`);
* `src/crop/filters.py` — the Template Transform Pipeline
  (`pop_bucket`, `replace_function_artifacts`, `inject_autoupdate`).

Python dictionaries are embedded as insertion-ordered association lists
(`Obj`), templates as a JSON-like inductive (`Val`), in-place mutation as
explicit state passing, and Python exceptions as `Except` results that
carry the document state at the moment of the raise (since the source
mutates its input in place, a caller observes those mutations even when
the call raises).
-/

set_option autoImplicit false

namespace Crop

/-! ## String helpers (`os.path.basename`, `str.split`, `str.rstrip`)

The byte-position string functions of the Lean core library are defined
by well-founded recursion and do not reduce definitionally, so the three
small string operations the source uses are embedded structurally over
character lists. -/

/-- `s.split(c)` for a one-character separator, Python semantics:
`splitOnChar c "".data = [[]]`, separators at the ends produce empty
components. -/
def splitOnChar (c : Char) : List Char → List (List Char)
  | [] => [[]]
  | x :: xs =>
      let rest := splitOnChar c xs
      if x = c then [] :: rest
      else
        match rest with
        | [] => [[x]]
        | r :: rs => (x :: r) :: rs

/-- `s.rstrip()`: drop trailing whitespace. -/
def rstrip (s : String) : String :=
  String.mk (((s.data).reverse.dropWhile Char.isWhitespace).reverse)

/-- `os.path.basename(s)` (POSIX): everything after the last slash. -/
def basename (s : String) : String :=
  String.mk ((splitOnChar '/' s.data).getLastD [])

/-! ## The Decision Engine (`src/crop/autoupdater.py`)

The handler reads configuration from four environment variables, calls
two external services and conditionally issues an update.  We embed the
external world as an `Env` record: the responses the two services would
give during this invocation.  The handler is then a pure function from
`Env` to the ordered list of outbound calls it makes, or an error (the
only error reachable in the body is indexing `[-1]` on an empty artifact
list). -/

/-- A provisioning artifact: `{'Id': ..., 'CreatedTime': ...}` as consumed
by the handler.  Timestamps are embedded as integers (the code only
compares them). -/
structure Artifact where
  id : String
  createdTime : Int
  deriving Repr, DecidableEq

/-- One entry of a stack's `Parameters` list as returned by
`describe_stacks`: the handler reads only `ParameterKey`. -/
structure StackParam where
  parameterKey : String
  parameterValue : String
  deriving Repr, DecidableEq

/-- The fields of the `describe_stacks` response record that the handler
reads: `StackStatus`, `CreationTime`, optional `LastUpdatedTime`, and
`Parameters`. -/
structure StackInfo where
  stackStatus : String
  creationTime : Int
  lastUpdatedTime : Option Int
  parameters : List StackParam
  deriving Repr, DecidableEq

/-- The world as seen by one invocation: the four environment variables
and the responses of the two external services.  `describeProduct = none`
embeds the `describe_product` call raising (the bare `except:` branch);
`some arts` embeds success with `product['ProvisioningArtifacts'] = arts`. -/
structure Env where
  productId : String
  stackName : String
  portfolioId : String
  autoUpdaterRoleARN : String
  describeProduct : Option (List Artifact)
  stack : StackInfo
  deriving Repr, DecidableEq

/-- One parameter entry passed to `update_provisioned_product`: the code
builds `{'Key': k, 'UsePreviousValue': True}` — no `'Value'` entry, which
we record as `value = none`. -/
structure UpdateParam where
  key : String
  usePreviousValue : Bool
  value : Option String
  deriving Repr, DecidableEq

/-- An outbound API call made by the handler, in the order issued. -/
inductive Call where
  | describeProduct (productId : String)
  | associatePrincipal (portfolioId : String) (principalARN : String) (principalType : String)
  | describeStacks (stackName : String)
  | updateProvisionedProduct (provisionedProductId : String) (productId : String)
      (provisioningArtifactId : String) (provisioningParameters : List UpdateParam)
  deriving Repr, DecidableEq

/-- Embedded Python exceptions (the kinds reachable in this code). -/
inductive PyErr where
  | keyError (key : String)
  | indexError (msg : String)
  | valueError (msg : String)
  | typeError (msg : String)
  deriving Repr, DecidableEq

/-- `'-'.join(os.environ['StackName'].split('-')[2:])`: drop the first two
hyphen-delimited segments and rejoin the rest. -/
def provisionedProductIdOf (stackName : String) : String :=
  String.intercalate "-" (((splitOnChar '-' stackName.data).map String.mk).drop 2)

/-- The settled statuses accepted by the busy guard (line 32 of
`autoupdater.py`). -/
def settledStatuses : List String :=
  ["CREATE_COMPLETE", "UPDATE_COMPLETE", "UPDATE_ROLLBACK_COMPLETE"]

/-- `last_action` (lines 36–38): `LastUpdatedTime` when present, else
`CreationTime`. -/
def lastActionTime (stack : StackInfo) : Int :=
  match stack.lastUpdatedTime with
  | some t => t
  | none => stack.creationTime

/-- The parameter-preservation list (lines 45–50): one entry per stack
parameter, `UsePreviousValue: True`, no value. -/
def preservedParams (ps : List StackParam) : List UpdateParam :=
  ps.map fun p => { key := p.parameterKey, usePreviousValue := true, value := none }

/-- `handler(event, context)` of `src/crop/autoupdater.py`, embedded as
the list of outbound calls of one invocation.  Every `sys.exit(0)` and
the fall-off-the-end return are successful terminations (`.ok`); the one
reachable exception is `IndexError` from `ProvisioningArtifacts[-1]` on
an empty list. -/
def handler (env : Env) : Except PyErr (List Call) :=
  let product_id := env.productId
  let provisioned_product_id := provisionedProductIdOf env.stackName
  match env.describeProduct with
  | none =>
      -- except: associate_principal_with_portfolio(...); sys.exit(0)
      .ok [.describeProduct product_id,
           .associatePrincipal env.portfolioId env.autoUpdaterRoleARN "IAM"]
  | some artifacts =>
      let stack := env.stack
      let calls := [Call.describeProduct product_id, Call.describeStacks env.stackName]
      if stack.stackStatus ∈ settledStatuses then
        let last_action := lastActionTime stack
        match artifacts.getLast? with
        | none => .error (.indexError "list index out of range")
        | some latest_artifact =>
            if last_action < latest_artifact.createdTime then
              .ok (calls ++ [.updateProvisionedProduct provisioned_product_id product_id
                    latest_artifact.id (preservedParams stack.parameters)])
            else
              .ok calls
      else
        -- "Stack is currently updating... skipping further checks"; sys.exit(0)
        .ok calls

/-- Is a call an `update_provisioned_product` call? -/
def Call.isUpdate : Call → Bool
  | .updateProvisionedProduct _ _ _ _ => true
  | _ => false

/-- Is a call an `associate_principal_with_portfolio` call? -/
def Call.isAssociate : Call → Bool
  | .associatePrincipal _ _ _ => true
  | _ => false

/-- Is a call a `describe_stacks` (instance status read) call? -/
def Call.isDescribeStacks : Call → Bool
  | .describeStacks _ => true
  | _ => false

/-! ## Templates as JSON-like documents

The Transform Pipeline operates on Python dictionaries loaded from a
CloudFormation template.  We embed them as a JSON-like inductive; a
dictionary is an insertion-ordered association list with unique keys
(Python `dict` preserves insertion order, and assignment to an existing
key keeps its position). -/

/-- A JSON-like value: the shape of templates and of everything inside
them. -/
inductive Val where
  | str : String → Val
  | int : Int → Val
  | bool : Bool → Val
  | list : List Val → Val
  | obj : List (String × Val) → Val

/-- Dictionary lookup on an association list: the value at the first
(and, with unique keys, only) matching key. -/
def olookup {α : Type} : List (String × α) → String → Option α
  | [], _ => none
  | (k', v) :: rest, k => if k' = k then some v else olookup rest k

/-- `k in d` for a dictionary. -/
def ohas {α : Type} (o : List (String × α)) (k : String) : Bool :=
  (olookup o k).isSome

/-- `d[k] = v`: replace in place when the key exists (keeping its
position), else append at the end — Python dict assignment. -/
def oset {α : Type} : List (String × α) → String → α → List (String × α)
  | [], k, v => [(k, v)]
  | (k', v') :: rest, k, v =>
      if k' = k then (k', v) :: rest else (k', v') :: oset rest k v

/-- `d.pop(k)`: the removed value and the remaining entries, or `none`
when the key is absent (Python raises `KeyError` then). -/
def opop {α : Type} : List (String × α) → String → Option (α × List (String × α))
  | [], _ => none
  | (k', v) :: rest, k =>
      if k' = k then some (v, rest)
      else (opop rest k).map fun p => (p.1, (k', v) :: p.2)

/-- `d[k]` on a value: `KeyError` when the key is missing, `TypeError`
when the value is not a dictionary. -/
def Val.getItem : Val → String → Except PyErr Val
  | .obj o, k =>
      match olookup o k with
      | some v => .ok v
      | none => .error (.keyError k)
  | _, k => .error (.typeError ("value is not subscriptable at key " ++ k))

/-- `d[k] = v` on a value. -/
def Val.setItem : Val → String → Val → Except PyErr Val
  | .obj o, k, v => .ok (.obj (oset o k v))
  | _, _, _ => .error (.typeError "value does not support item assignment")

/-- `k in d` on a value.  (The templates this code manipulates are
dictionaries; the string/list membership forms of the Python `in`
operator are not modelled.) -/
def Val.hasKey : Val → String → Except PyErr Bool
  | .obj o, k => .ok (ohas o k)
  | _, _ => .error (.typeError "value is not a dictionary")

/-- `d.setdefault(k, v)` on a value (the code discards the returned
value, so only the updated dictionary is modelled). -/
def Val.setdefault : Val → String → Val → Except PyErr Val
  | .obj o, k, v => .ok (if ohas o k then .obj o else .obj (oset o k v))
  | _, _, _ => .error (.typeError "value is not a dictionary")

/-- `t[k1][k2] = v`: mutate a nested dictionary in place. -/
def Val.setItem2 (t : Val) (k1 k2 : String) (v : Val) : Except PyErr Val :=
  match t.getItem k1 with
  | .error e => .error e
  | .ok inner =>
      match inner.setItem k2 v with
      | .error e => .error e
      | .ok inner' => t.setItem k1 inner'

/-- `t[k1][k2][k3] = v`: mutate a doubly nested dictionary in place. -/
def Val.setItem3 (t : Val) (k1 k2 k3 : String) (v : Val) : Except PyErr Val :=
  match t.getItem k1 with
  | .error e => .error e
  | .ok inner =>
      match inner.setItem2 k2 k3 v with
      | .error e => .error e
      | .ok inner' => t.setItem k1 inner'

/-! ## The Template Transform Pipeline (`src/crop/filters.py`)

The four resources, the parameter and the condition injected by
`inject_autoupdate` are given as entry lists (`xEntries`) wrapped into
`Val.obj`, so that theorems can speak about the later in-place addition
of a `Condition` key to each resource. -/

/-- Entries of the injected `CROPAutoUpdaterRole` resource
(`filters.py` lines 81–111). -/
def roleResourceEntries : List (String × Val) :=
  [("Type", .str "AWS::IAM::Role"),
   ("Properties", .obj
     [("AssumeRolePolicyDocument", .obj
        [("Version", .str "2012-10-17"),
         ("Statement", .list
           [.obj
             [("Action", .list [.str "sts:AssumeRole"]),
              ("Effect", .str "Allow"),
              ("Principal", .obj
                [("Service", .list [.str "lambda.amazonaws.com"])])]])]),
      ("Policies", .list
        [.obj
          [("PolicyName", .str "AutoUpdateServiceCatalog"),
           ("PolicyDocument", .obj
             [("Version", .str "2012-10-17"),
              ("Statement", .list
                [.obj
                  [("Action", .list [.str "*"]),
                   ("Effect", .str "Allow"),
                   ("Resource", .list [.str "*"])]])])]])])]

/-- The injected role resource. -/
def roleResource : Val := .obj roleResourceEntries

/-- The schedule expression rendering (`filters.py` lines 116–119):
singular wording exactly for `interval = 1`. -/
def intervalString (interval : Int) : String :=
  if interval = 1 then "1 minute" else toString interval ++ " minutes"

/-- Entries of the injected `CROPAutoUpdaterEvent` resource
(`filters.py` lines 122–132). -/
def eventResourceEntries (interval : Int) : List (String × Val) :=
  [("Type", .str "AWS::Events::Rule"),
   ("Properties", .obj
     [("ScheduleExpression", .str ("rate(" ++ intervalString interval ++ ")")),
      ("State", .str "ENABLED"),
      ("Targets", .list
        [.obj
          [("Arn", .obj [("Fn::GetAtt", .list [.str "CROPAutoUpdaterFunction", .str "Arn"])]),
           ("Id", .str "autoUpdaterSchedule")]])])]

/-- The injected scheduled-trigger resource. -/
def eventResource (interval : Int) : Val := .obj (eventResourceEntries interval)

/-- Entries of the injected `CROPAutoUpdaterEventPermission` resource
(`filters.py` lines 135–143). -/
def permissionResourceEntries : List (String × Val) :=
  [("Type", .str "AWS::Lambda::Permission"),
   ("Properties", .obj
     [("Action", .str "lambda:InvokeFunction"),
      ("FunctionName", .obj [("Fn::GetAtt", .list [.str "CROPAutoUpdaterFunction", .str "Arn"])]),
      ("Principal", .str "events.amazonaws.com"),
      ("SourceArn", .obj [("Fn::GetAtt", .list [.str "CROPAutoUpdaterEvent", .str "Arn"])])])]

/-- The injected trigger-invoke permission resource. -/
def permissionResource : Val := .obj permissionResourceEntries

/-- Entries of the injected `CROPAutoUpdaterFunction` resource
(`filters.py` lines 153–174).  `compiled` is the content of
`autoupdater.py` as read by `readlines()` and right-stripped per line
(lines 145–151); the file read is modelled by passing the raw lines in. -/
def functionResourceEntries (catalog_id product_id : String) (compiled : List String) :
    List (String × Val) :=
  [("Type", .str "AWS::Lambda::Function"),
   ("Properties", .obj
     [("Code", .obj
        [("ZipFile", .obj [("Fn::Join", .list [.str "\n", .list (compiled.map .str)])])]),
      ("Description", .str "AutoUpdater for ServiceCatalog Function"),
      ("Handler", .str "index.handler"),
      ("MemorySize", .str "256"),
      ("Environment", .obj
        [("Variables", .obj
          [("PortfolioId", .str catalog_id),
           ("StackName", .obj [("Ref", .str "AWS::StackName")]),
           ("AutoUpdaterRoleARN", .obj
             [("Fn::GetAtt", .list [.str "CROPAutoUpdaterRole", .str "Arn"])]),
           ("ProductId", .str product_id)])]),
      ("Role", .obj [("Fn::GetAtt", .list [.str "CROPAutoUpdaterRole", .str "Arn"])]),
      ("Runtime", .str "python2.7"),
      ("Timeout", .int 30)])]

/-- The injected updater-agent function resource. -/
def functionResource (catalog_id product_id : String) (compiled : List String) : Val :=
  .obj (functionResourceEntries catalog_id product_id compiled)

/-- The injected `AutoUpdates` parameter (`filters.py` lines 178–184).
The description string reproduces the missing space of the source
(adjacent string literals are concatenated with no separator). -/
def autoUpdatesParam : Val :=
  .obj
    [("Type", .str "String"),
     ("Description", .str ("Allow the service to automatically update itself when" ++
        "an update is available, otherwise you must manually approve updates.")),
     ("AllowedValues", .list [.str "Enable", .str "Disable"]),
     ("Default", .str "Enable")]

/-- The injected `CROPAutoUpdating` condition (`filters.py` line 188). -/
def cropCondition : Val :=
  .obj [("Fn::Equals", .list [.obj [("Ref", .str "AutoUpdates")], .str "Enable"])]

/-- The four reserved resource logical ids, in the order of the `any`
check (`filters.py` lines 66–71). -/
def reservedResourceIds : List String :=
  ["CROPAutoUpdaterRole", "CROPAutoUpdaterEvent",
   "CROPAutoUpdaterEventPermission", "CROPAutoUpdaterFunction"]

/-- The three collision checks at the top of `inject_autoupdate`
(`filters.py` lines 66–78), run before any mutation.  The parameter
check reads `template[Parameters]` unconditionally; the condition check
is guarded by `Conditions in template.keys()`. -/
def checkCollisions (template : Val) : Except PyErr Unit := do
  let resources ← template.getItem "Resources"
  let b1 ← resources.hasKey "CROPAutoUpdaterRole"
  let b2 ← resources.hasKey "CROPAutoUpdaterEvent"
  let b3 ← resources.hasKey "CROPAutoUpdaterEventPermission"
  let b4 ← resources.hasKey "CROPAutoUpdaterFunction"
  if b1 || b2 || b3 || b4 then
    throw (PyErr.valueError "Resource logical IDs conflict with keys used by CROP")
  let params ← template.getItem "Parameters"
  let pcol ← params.hasKey "AutoUpdates"
  if pcol then
    throw (PyErr.valueError "Param IDs conflict with Param IDs used by CROP")
  let hasConds ← template.hasKey "Conditions"
  if hasConds then
    let conds ← template.getItem "Conditions"
    let ccol ← conds.hasKey "CROPAutoUpdating"
    if ccol then
      throw (PyErr.valueError "Condition IDs conflict with Conditions IDs used by CROP")

/-- Attach the document state at the moment of a raise: the source
mutates `template` in place, so a raised exception leaves the caller
holding the partially mutated document. -/
def withState {α : Type} (t : Val) : Except PyErr α → Except (PyErr × Val) α
  | .ok a => .ok a
  | .error e => .error (e, t)

/-- The mutation sequence of `inject_autoupdate` after the collision
checks (`filters.py` lines 81–196): the role is added first, then the
interval is validated, then the event, permission and function
resources are added; when `force` is false the parameter, the condition
and the four `Condition` references are added. -/
def injectBody (template : Val) (catalog_id product_id : String) (force : Bool)
    (interval : Int) (updaterSource : List String) : Except (PyErr × Val) Val := do
  let t1 ← withState template
    (template.setItem2 "Resources" "CROPAutoUpdaterRole" roleResource)
  if interval < 1 then
    throw (PyErr.valueError "Cannot specify an interval less than 1 (minute)", t1)
  let t2 ← withState t1
    (t1.setItem2 "Resources" "CROPAutoUpdaterEvent" (eventResource interval))
  let t3 ← withState t2
    (t2.setItem2 "Resources" "CROPAutoUpdaterEventPermission" permissionResource)
  let compiled := updaterSource.map rstrip
  let t4 ← withState t3
    (t3.setItem2 "Resources" "CROPAutoUpdaterFunction"
      (functionResource catalog_id product_id compiled))
  if force then
    return t4
  else
    let t5 ← withState t4 (t4.setdefault "Parameters" (Val.obj []))
    let t6 ← withState t5 (t5.setItem2 "Parameters" "AutoUpdates" autoUpdatesParam)
    let t7 ← withState t6 (t6.setdefault "Conditions" (Val.obj []))
    let t8 ← withState t7 (t7.setItem2 "Conditions" "CROPAutoUpdating" cropCondition)
    let t9 ← withState t8
      (t8.setItem3 "Resources" "CROPAutoUpdaterFunction" "Condition" (.str "CROPAutoUpdating"))
    let t10 ← withState t9
      (t9.setItem3 "Resources" "CROPAutoUpdaterEventPermission" "Condition" (.str "CROPAutoUpdating"))
    let t11 ← withState t10
      (t10.setItem3 "Resources" "CROPAutoUpdaterEvent" "Condition" (.str "CROPAutoUpdating"))
    let t12 ← withState t11
      (t11.setItem3 "Resources" "CROPAutoUpdaterRole" "Condition" (.str "CROPAutoUpdating"))
    return t12

/-- `inject_autoupdate(template, catalog_id, product_id, force, interval)`
of `src/crop/filters.py`.  `updaterSource` stands for the lines of the
`autoupdater.py` file read at lines 145–151 (the file system is not part
of the embedding; no claim depends on the file content).  The error case
carries the document as mutated up to the raise. -/
def inject_autoupdate (template : Val) (catalog_id product_id : String) (force : Bool)
    (interval : Int) (updaterSource : List String) : Except (PyErr × Val) Val :=
  match checkCollisions template with
  | .error e => .error (e, template)
  | .ok _ => injectBody template catalog_id product_id force interval updaterSource

/-- One value of the `asset_key_map` argument of
`replace_function_artifacts`: either a single key string or a
(key, version) pair. -/
inductive AssetEntry where
  | key (k : String)
  | keyVer (k : String) (version : String)
  deriving Repr, DecidableEq

/-- The replacement `Code` mapping built at lines 32–40 of `filters.py`:
`{S3Bucket: bucket, S3Key: key[, S3ObjectVersion: version]}`. -/
def newCode (asset_bucket : String) : AssetEntry → Val
  | .key k => .obj [("S3Bucket", .str asset_bucket), ("S3Key", .str k)]
  | .keyVer k ver =>
      .obj [("S3Bucket", .str asset_bucket), ("S3Key", .str k),
            ("S3ObjectVersion", .str ver)]

/-- The loop body of `replace_function_artifacts` for one resource
(`filters.py` lines 25–43): non-`AWS::Lambda::Function` resources are
returned untouched; for function resources the base name of
`Properties.Code.S3Key` is looked up in the map (`KeyError` when
absent) and `Properties.Code` is replaced. -/
def rewriteResource (asset_bucket : String) (asset_key_map : List (String × AssetEntry))
    (r : Val) : Except PyErr Val := do
  let ty ← r.getItem "Type"
  let isFn : Bool := match ty with
    | .str s => s = "AWS::Lambda::Function"
    | _ => false
  if isFn then
    let props ← r.getItem "Properties"
    let code ← props.getItem "Code"
    let s3key ← code.getItem "S3Key"
    match s3key with
    | .str s =>
        let asset_name := basename s
        match olookup asset_key_map asset_name with
        | none => throw (PyErr.keyError asset_name)
        | some entry =>
            let props' ← props.setItem "Code" (newCode asset_bucket entry)
            r.setItem "Properties" props'
    | _ => throw (PyErr.typeError "basename expects a string")
  else
    return r

/-- The `for logical_id, resource in template[Resources].items()` loop:
entries are processed in insertion order; an error partway leaves the
earlier entries rewritten (the error carries the entry list as mutated
so far, the failing and the remaining entries untouched). -/
def replaceResources (asset_bucket : String) (asset_key_map : List (String × AssetEntry)) :
    List (String × Val) → Except (PyErr × List (String × Val)) (List (String × Val))
  | [] => .ok []
  | (logical_id, r) :: rest =>
      match rewriteResource asset_bucket asset_key_map r with
      | .error e => .error (e, (logical_id, r) :: rest)
      | .ok r' =>
          match replaceResources asset_bucket asset_key_map rest with
          | .error (e, rest') => .error (e, (logical_id, r') :: rest')
          | .ok rest' => .ok ((logical_id, r') :: rest')

/-- `replace_function_artifacts(template, asset_bucket, asset_key_map)`
of `src/crop/filters.py`.  The error case carries the template as
mutated up to the raise. -/
def replace_function_artifacts (template : Val) (asset_bucket : String)
    (asset_key_map : List (String × AssetEntry)) : Except (PyErr × Val) Val :=
  match template with
  | .obj o =>
      match olookup o "Resources" with
      | none => .error (.keyError "Resources", template)
      | some (.obj res) =>
          match replaceResources asset_bucket asset_key_map res with
          | .ok res' => .ok (.obj (oset o "Resources" (.obj res')))
          | .error (e, res') => .error (e, .obj (oset o "Resources" (.obj res')))
      | some _ => .error (.typeError "items requires a dictionary", template)
  | _ => .error (.typeError "value is not subscriptable at key Resources", template)

/-- `pop_bucket(template)` of `src/crop/filters.py`: remove the
`ServerlessDeploymentBucket` resource and the
`ServerlessDeploymentBucketName` output; `KeyError` when either is
absent. -/
def pop_bucket (template : Val) : Except (PyErr × Val) Val :=
  match template with
  | .obj o =>
      match olookup o "Resources" with
      | some (.obj res) =>
          match opop res "ServerlessDeploymentBucket" with
          | none => .error (.keyError "ServerlessDeploymentBucket", template)
          | some (_, res') =>
              let o1 := oset o "Resources" (.obj res')
              match olookup o1 "Outputs" with
              | some (.obj outs) =>
                  match opop outs "ServerlessDeploymentBucketName" with
                  | none => .error (.keyError "ServerlessDeploymentBucketName", .obj o1)
                  | some (_, outs') => .ok (.obj (oset o1 "Outputs" (.obj outs')))
              | some _ => .error (.typeError "pop requires a dictionary", .obj o1)
              | none => .error (.keyError "Outputs", .obj o1)
      | some _ => .error (.typeError "pop requires a dictionary", template)
      | none => .error (.keyError "Resources", template)
  | _ => .error (.typeError "value is not subscriptable at key Resources", template)

/-! ## Dictionary lemmas -/

theorem olookup_oset_self {α : Type} (o : List (String × α)) (k : String) (v : α) :
    olookup (oset o k v) k = some v := by
  induction o with
  | nil => simp [oset, olookup]
  | cons p rest ih =>
      obtain ⟨k', v'⟩ := p
      by_cases h : k' = k
      · simp [oset, olookup, h]
      · simp [oset, olookup, h, ih]

theorem olookup_oset_ne {α : Type} (o : List (String × α)) (k k' : String) (v : α)
    (h : k ≠ k') : olookup (oset o k v) k' = olookup o k' := by
  induction o with
  | nil => simp [oset, olookup, h]
  | cons p rest ih =>
      obtain ⟨k'', v''⟩ := p
      by_cases h2 : k'' = k
      · subst h2
        simp [oset, olookup, h]
      · simp [oset, olookup, h2, ih]

theorem oset_of_not_has {α : Type} (o : List (String × α)) (k : String) (v : α)
    (h : ohas o k = false) : oset o k v = o ++ [(k, v)] := by
  induction o with
  | nil => simp [oset]
  | cons p rest ih =>
      obtain ⟨k', v'⟩ := p
      by_cases h2 : k' = k
      · subst h2
        simp [ohas, olookup] at h
      · simp [ohas, olookup, h2] at h
        simp [oset, h2, ih (by simp [ohas, h])]

theorem oset_oset_self {α : Type} (o : List (String × α)) (k : String) (v w : α) :
    oset (oset o k v) k w = oset o k w := by
  induction o with
  | nil => simp [oset]
  | cons p rest ih =>
      obtain ⟨k', v'⟩ := p
      by_cases h : k' = k
      · simp [oset, h]
      · simp [oset, h, ih]

theorem ohas_append {α : Type} (o1 o2 : List (String × α)) (k : String) :
    ohas (o1 ++ o2) k = (ohas o1 k || ohas o2 k) := by
  induction o1 with
  | nil => simp [ohas, olookup]
  | cons p rest ih =>
      obtain ⟨k', v'⟩ := p
      by_cases h : k' = k
      · simp [ohas, olookup, h]
      · simp [ohas, olookup, h] at ih ⊢
        exact ih

theorem olookup_append_of_not_has {α : Type} (o1 o2 : List (String × α)) (k : String)
    (h : ohas o1 k = false) : olookup (o1 ++ o2) k = olookup o2 k := by
  induction o1 with
  | nil => simp
  | cons p rest ih =>
      obtain ⟨k', v'⟩ := p
      by_cases h2 : k' = k
      · subst h2
        simp [ohas, olookup] at h
      · simp [ohas, olookup, h2] at h
        simp [olookup, h2, ih (by simp [ohas, h])]

theorem oset_append_of_not_has {α : Type} (o1 o2 : List (String × α)) (k : String) (v : α)
    (h : ohas o1 k = false) : oset (o1 ++ o2) k v = o1 ++ oset o2 k v := by
  induction o1 with
  | nil => simp
  | cons p rest ih =>
      obtain ⟨k', v'⟩ := p
      by_cases h2 : k' = k
      · subst h2
        simp [ohas, olookup] at h
      · simp [ohas, olookup, h2] at h
        simp [oset, h2, ih (by simp [ohas, h])]

theorem ohas_oset_self {α : Type} (o : List (String × α)) (k : String) (v : α) :
    ohas (oset o k v) k = true := by
  simp [ohas, olookup_oset_self]

theorem ohas_oset_ne {α : Type} (o : List (String × α)) (k k' : String) (v : α)
    (h : k ≠ k') : ohas (oset o k v) k' = ohas o k' := by
  simp [ohas, olookup_oset_ne _ _ _ _ h]

theorem ohas_false_iff {α : Type} (o : List (String × α)) (k : String) :
    ohas o k = false ↔ olookup o k = none := by
  simp [ohas, Option.isSome]
  cases olookup o k <;> simp

theorem setItem2_obj (o inner : List (String × Val)) (k1 k2 : String) (v : Val)
    (h : olookup o k1 = some (Val.obj inner)) :
    (Val.obj o).setItem2 k1 k2 v = .ok (Val.obj (oset o k1 (Val.obj (oset inner k2 v)))) := by
  simp [Val.setItem2, Val.getItem, h, Val.setItem]

theorem setItem3_obj (o inner rv : List (String × Val)) (k1 k2 k3 : String) (v : Val)
    (h1 : olookup o k1 = some (Val.obj inner))
    (h2 : olookup inner k2 = some (Val.obj rv)) :
    (Val.obj o).setItem3 k1 k2 k3 v =
      .ok (Val.obj (oset o k1 (Val.obj (oset inner k2 (Val.obj (oset rv k3 v)))))) := by
  simp [Val.setItem3, Val.getItem, h1, Val.setItem2, h2, Val.setItem]

theorem setdefault_present (o : List (String × Val)) (k : String) (v : Val)
    (h : ohas o k = true) : (Val.obj o).setdefault k v = .ok (Val.obj o) := by
  simp [Val.setdefault, h]

theorem setdefault_absent (o : List (String × Val)) (k : String) (v : Val)
    (h : ohas o k = false) : (Val.obj o).setdefault k v = .ok (Val.obj (oset o k v)) := by
  simp [Val.setdefault, h]


/-! ## Characterization of a successful injection -/

/-- The exact document produced by the mutation body of
`inject_autoupdate` with `force = true`: the four resources are
appended plain and the `Parameters` and `Conditions` entries are not
touched. -/
theorem injectBody_force_true (o res : List (String × Val)) (c p : String)
    (interval : Int) (src : List String)
    (ho : olookup o "Resources" = some (Val.obj res))
    (hR : ohas res "CROPAutoUpdaterRole" = false)
    (hE : ohas res "CROPAutoUpdaterEvent" = false)
    (hP : ohas res "CROPAutoUpdaterEventPermission" = false)
    (hF : ohas res "CROPAutoUpdaterFunction" = false)
    (hint : 1 ≤ interval) :
    injectBody (Val.obj o) c p true interval src =
      .ok (Val.obj (oset o "Resources" (Val.obj (res ++
        [("CROPAutoUpdaterRole", roleResource),
         ("CROPAutoUpdaterEvent", eventResource interval),
         ("CROPAutoUpdaterEventPermission", permissionResource),
         ("CROPAutoUpdaterFunction", functionResource c p (src.map rstrip))])))) := by
  have hiv : ¬ (interval < 1) := by omega
  have h1 : (Val.obj o).setItem2 "Resources" "CROPAutoUpdaterRole" roleResource =
      .ok (Val.obj (oset o "Resources" (Val.obj (res ++ [("CROPAutoUpdaterRole", roleResource)])))) := by
    simp [Val.setItem2, Val.getItem, ho, Val.setItem, oset_of_not_has _ _ _ hR]
  have hE1 : ohas (res ++ [("CROPAutoUpdaterRole", roleResource)]) "CROPAutoUpdaterEvent" = false := by
    rw [ohas_append, hE]
    simp [ohas, olookup]
  have h2 : (Val.obj (oset o "Resources" (Val.obj (res ++ [("CROPAutoUpdaterRole", roleResource)])))).setItem2
      "Resources" "CROPAutoUpdaterEvent" (eventResource interval) =
      .ok (Val.obj (oset o "Resources" (Val.obj (res ++
        [("CROPAutoUpdaterRole", roleResource), ("CROPAutoUpdaterEvent", eventResource interval)])))) := by
    simp [Val.setItem2, Val.getItem, olookup_oset_self, Val.setItem, oset_oset_self,
      oset_of_not_has _ _ _ hE1]
  have hP1 : ohas (res ++ [("CROPAutoUpdaterRole", roleResource),
      ("CROPAutoUpdaterEvent", eventResource interval)]) "CROPAutoUpdaterEventPermission" = false := by
    rw [ohas_append, hP]
    simp [ohas, olookup]
  have h3 : (Val.obj (oset o "Resources" (Val.obj (res ++
      [("CROPAutoUpdaterRole", roleResource), ("CROPAutoUpdaterEvent", eventResource interval)])))).setItem2
      "Resources" "CROPAutoUpdaterEventPermission" permissionResource =
      .ok (Val.obj (oset o "Resources" (Val.obj (res ++
        [("CROPAutoUpdaterRole", roleResource), ("CROPAutoUpdaterEvent", eventResource interval),
         ("CROPAutoUpdaterEventPermission", permissionResource)])))) := by
    simp [Val.setItem2, Val.getItem, olookup_oset_self, Val.setItem, oset_oset_self,
      oset_of_not_has _ _ _ hP1]
  have hF1 : ohas (res ++ [("CROPAutoUpdaterRole", roleResource),
      ("CROPAutoUpdaterEvent", eventResource interval),
      ("CROPAutoUpdaterEventPermission", permissionResource)]) "CROPAutoUpdaterFunction" = false := by
    rw [ohas_append, hF]
    simp [ohas, olookup]
  have h4 : (Val.obj (oset o "Resources" (Val.obj (res ++
      [("CROPAutoUpdaterRole", roleResource), ("CROPAutoUpdaterEvent", eventResource interval),
       ("CROPAutoUpdaterEventPermission", permissionResource)])))).setItem2
      "Resources" "CROPAutoUpdaterFunction" (functionResource c p (src.map rstrip)) =
      .ok (Val.obj (oset o "Resources" (Val.obj (res ++
        [("CROPAutoUpdaterRole", roleResource), ("CROPAutoUpdaterEvent", eventResource interval),
         ("CROPAutoUpdaterEventPermission", permissionResource),
         ("CROPAutoUpdaterFunction", functionResource c p (src.map rstrip))])))) := by
    simp [Val.setItem2, Val.getItem, olookup_oset_self, Val.setItem, oset_oset_self,
      oset_of_not_has _ _ _ hF1]
  simp only [injectBody, h1, withState, Bind.bind, Except.bind, hiv, if_false,
    h2, h3, h4, if_true, pure, Except.pure]


/-- The exact document produced by the mutation body of
`inject_autoupdate` with `force = false`, on a template whose
`Resources` and `Parameters` values are dictionaries free of the
reserved ids and whose `Conditions` key is absent (`conds0 = []`) or a
dictionary free of the reserved condition id. -/
theorem injectBody_force_false (o res pars conds0 : List (String × Val)) (c p : String)
    (interval : Int) (src : List String)
    (ho : olookup o "Resources" = some (Val.obj res))
    (hR : ohas res "CROPAutoUpdaterRole" = false)
    (hE : ohas res "CROPAutoUpdaterEvent" = false)
    (hP : ohas res "CROPAutoUpdaterEventPermission" = false)
    (hF : ohas res "CROPAutoUpdaterFunction" = false)
    (hpa : olookup o "Parameters" = some (Val.obj pars))
    (hpau : ohas pars "AutoUpdates" = false)
    (hco : (olookup o "Conditions" = none ∧ conds0 = []) ∨
           (olookup o "Conditions" = some (Val.obj conds0) ∧
            ohas conds0 "CROPAutoUpdating" = false))
    (hint : 1 ≤ interval) :
    injectBody (Val.obj o) c p false interval src =
      .ok (Val.obj (oset (oset (oset (oset o "Resources" (Val.obj (res ++ [("CROPAutoUpdaterRole", roleResource), ("CROPAutoUpdaterEvent", eventResource interval), ("CROPAutoUpdaterEventPermission", permissionResource), ("CROPAutoUpdaterFunction", functionResource c p (src.map rstrip))]))) "Parameters" (Val.obj (pars ++ [("AutoUpdates", autoUpdatesParam)]))) "Conditions" (Val.obj (conds0 ++ [("CROPAutoUpdating", cropCondition)]))) "Resources" (Val.obj (res ++ [("CROPAutoUpdaterRole", Val.obj (roleResourceEntries ++ [("Condition", Val.str "CROPAutoUpdating")])), ("CROPAutoUpdaterEvent", Val.obj (eventResourceEntries interval ++ [("Condition", Val.str "CROPAutoUpdating")])), ("CROPAutoUpdaterEventPermission", Val.obj (permissionResourceEntries ++ [("Condition", Val.str "CROPAutoUpdating")])), ("CROPAutoUpdaterFunction", Val.obj (functionResourceEntries c p (src.map rstrip) ++ [("Condition", Val.str "CROPAutoUpdating")]))])))) := by
  have hiv : ¬ (interval < 1) := by omega
  have hE1 : ohas (res ++ [("CROPAutoUpdaterRole", roleResource)]) "CROPAutoUpdaterEvent" = false := by
    rw [ohas_append, hE]
    simp [ohas, olookup]
  have hP1 : ohas (res ++ [("CROPAutoUpdaterRole", roleResource), ("CROPAutoUpdaterEvent", eventResource interval)]) "CROPAutoUpdaterEventPermission" = false := by
    rw [ohas_append, hP]
    simp [ohas, olookup]
  have hF1 : ohas (res ++ [("CROPAutoUpdaterRole", roleResource), ("CROPAutoUpdaterEvent", eventResource interval), ("CROPAutoUpdaterEventPermission", permissionResource)]) "CROPAutoUpdaterFunction" = false := by
    rw [ohas_append, hF]
    simp [ohas, olookup]
  have h1 : (Val.obj o).setItem2 "Resources" "CROPAutoUpdaterRole" roleResource =
      .ok (Val.obj (oset o "Resources" (Val.obj (res ++ [("CROPAutoUpdaterRole", roleResource)])))) := by
    rw [setItem2_obj _ _ _ _ _ ho, oset_of_not_has _ _ _ hR]
  have h2 : (Val.obj (oset o "Resources" (Val.obj (res ++ [("CROPAutoUpdaterRole", roleResource)])))).setItem2 "Resources" "CROPAutoUpdaterEvent"
      (eventResource interval) = .ok (Val.obj (oset o "Resources" (Val.obj (res ++ [("CROPAutoUpdaterRole", roleResource), ("CROPAutoUpdaterEvent", eventResource interval)])))) := by
    rw [setItem2_obj _ _ _ _ _ (olookup_oset_self _ _ _),
      oset_of_not_has _ _ _ hE1, oset_oset_self]
    simp
  have h3 : (Val.obj (oset o "Resources" (Val.obj (res ++ [("CROPAutoUpdaterRole", roleResource), ("CROPAutoUpdaterEvent", eventResource interval)])))).setItem2 "Resources" "CROPAutoUpdaterEventPermission"
      permissionResource = .ok (Val.obj (oset o "Resources" (Val.obj (res ++ [("CROPAutoUpdaterRole", roleResource), ("CROPAutoUpdaterEvent", eventResource interval), ("CROPAutoUpdaterEventPermission", permissionResource)])))) := by
    rw [setItem2_obj _ _ _ _ _ (olookup_oset_self _ _ _),
      oset_of_not_has _ _ _ hP1, oset_oset_self]
    simp
  have h4 : (Val.obj (oset o "Resources" (Val.obj (res ++ [("CROPAutoUpdaterRole", roleResource), ("CROPAutoUpdaterEvent", eventResource interval), ("CROPAutoUpdaterEventPermission", permissionResource)])))).setItem2 "Resources" "CROPAutoUpdaterFunction"
      (functionResource c p (src.map rstrip)) = .ok (Val.obj (oset o "Resources" (Val.obj (res ++ [("CROPAutoUpdaterRole", roleResource), ("CROPAutoUpdaterEvent", eventResource interval), ("CROPAutoUpdaterEventPermission", permissionResource), ("CROPAutoUpdaterFunction", functionResource c p (src.map rstrip))])))) := by
    rw [setItem2_obj _ _ _ _ _ (olookup_oset_self _ _ _),
      oset_of_not_has _ _ _ hF1, oset_oset_self]
    simp
  have h5 : (Val.obj (oset o "Resources" (Val.obj (res ++ [("CROPAutoUpdaterRole", roleResource), ("CROPAutoUpdaterEvent", eventResource interval), ("CROPAutoUpdaterEventPermission", permissionResource), ("CROPAutoUpdaterFunction", functionResource c p (src.map rstrip))])))).setdefault "Parameters" (Val.obj []) = .ok (Val.obj (oset o "Resources" (Val.obj (res ++ [("CROPAutoUpdaterRole", roleResource), ("CROPAutoUpdaterEvent", eventResource interval), ("CROPAutoUpdaterEventPermission", permissionResource), ("CROPAutoUpdaterFunction", functionResource c p (src.map rstrip))])))) := by
    refine setdefault_present _ _ _ ?_
    rw [ohas_oset_ne _ _ _ _ (by decide)]
    simp [ohas, hpa]
  have hlp : olookup (oset o "Resources" (Val.obj (res ++ [("CROPAutoUpdaterRole", roleResource), ("CROPAutoUpdaterEvent", eventResource interval), ("CROPAutoUpdaterEventPermission", permissionResource), ("CROPAutoUpdaterFunction", functionResource c p (src.map rstrip))]))) "Parameters" = some (Val.obj pars) := by
    rw [olookup_oset_ne _ _ _ _ (by decide), hpa]
  have h6 : (Val.obj (oset o "Resources" (Val.obj (res ++ [("CROPAutoUpdaterRole", roleResource), ("CROPAutoUpdaterEvent", eventResource interval), ("CROPAutoUpdaterEventPermission", permissionResource), ("CROPAutoUpdaterFunction", functionResource c p (src.map rstrip))])))).setItem2 "Parameters" "AutoUpdates" autoUpdatesParam =
      .ok (Val.obj (oset (oset o "Resources" (Val.obj (res ++ [("CROPAutoUpdaterRole", roleResource), ("CROPAutoUpdaterEvent", eventResource interval), ("CROPAutoUpdaterEventPermission", permissionResource), ("CROPAutoUpdaterFunction", functionResource c p (src.map rstrip))]))) "Parameters" (Val.obj (pars ++ [("AutoUpdates", autoUpdatesParam)])))) := by
    rw [setItem2_obj _ _ _ _ _ hlp, oset_of_not_has _ _ _ hpau]
  rcases hco with ⟨hcoA, hc0⟩ | ⟨hcoB, hcc⟩
  · have h7 : (Val.obj (oset (oset o "Resources" (Val.obj (res ++ [("CROPAutoUpdaterRole", roleResource), ("CROPAutoUpdaterEvent", eventResource interval), ("CROPAutoUpdaterEventPermission", permissionResource), ("CROPAutoUpdaterFunction", functionResource c p (src.map rstrip))]))) "Parameters" (Val.obj (pars ++ [("AutoUpdates", autoUpdatesParam)])))).setdefault "Conditions" (Val.obj []) =
        .ok (Val.obj (oset (oset (oset o "Resources" (Val.obj (res ++ [("CROPAutoUpdaterRole", roleResource), ("CROPAutoUpdaterEvent", eventResource interval), ("CROPAutoUpdaterEventPermission", permissionResource), ("CROPAutoUpdaterFunction", functionResource c p (src.map rstrip))]))) "Parameters" (Val.obj (pars ++ [("AutoUpdates", autoUpdatesParam)]))) "Conditions" (Val.obj []))) := by
      refine setdefault_absent _ _ _ ?_
      rw [ohas_oset_ne _ _ _ _ (by decide), ohas_oset_ne _ _ _ _ (by decide)]
      simp [ohas, hcoA]
    have h8 : (Val.obj (oset (oset (oset o "Resources" (Val.obj (res ++ [("CROPAutoUpdaterRole", roleResource), ("CROPAutoUpdaterEvent", eventResource interval), ("CROPAutoUpdaterEventPermission", permissionResource), ("CROPAutoUpdaterFunction", functionResource c p (src.map rstrip))]))) "Parameters" (Val.obj (pars ++ [("AutoUpdates", autoUpdatesParam)]))) "Conditions" (Val.obj []))).setItem2 "Conditions"
        "CROPAutoUpdating" cropCondition = .ok (Val.obj (oset (oset (oset o "Resources" (Val.obj (res ++ [("CROPAutoUpdaterRole", roleResource), ("CROPAutoUpdaterEvent", eventResource interval), ("CROPAutoUpdaterEventPermission", permissionResource), ("CROPAutoUpdaterFunction", functionResource c p (src.map rstrip))]))) "Parameters" (Val.obj (pars ++ [("AutoUpdates", autoUpdatesParam)]))) "Conditions" (Val.obj (conds0 ++ [("CROPAutoUpdating", cropCondition)])))) := by
      rw [hc0]
      rw [setItem2_obj _ _ _ _ _ (olookup_oset_self _ _ _), oset_oset_self]
      simp [oset]
    have hlr : olookup (oset (oset (oset o "Resources" (Val.obj (res ++ [("CROPAutoUpdaterRole", roleResource), ("CROPAutoUpdaterEvent", eventResource interval), ("CROPAutoUpdaterEventPermission", permissionResource), ("CROPAutoUpdaterFunction", functionResource c p (src.map rstrip))]))) "Parameters" (Val.obj (pars ++ [("AutoUpdates", autoUpdatesParam)]))) "Conditions" (Val.obj (conds0 ++ [("CROPAutoUpdating", cropCondition)]))) "Resources" = some (Val.obj (res ++ [("CROPAutoUpdaterRole", roleResource), ("CROPAutoUpdaterEvent", eventResource interval), ("CROPAutoUpdaterEventPermission", permissionResource), ("CROPAutoUpdaterFunction", functionResource c p (src.map rstrip))])) := by
      rw [olookup_oset_ne _ _ _ _ (by decide), olookup_oset_ne _ _ _ _ (by decide),
        olookup_oset_self]
    have hfn : olookup (res ++ [("CROPAutoUpdaterRole", roleResource), ("CROPAutoUpdaterEvent", eventResource interval), ("CROPAutoUpdaterEventPermission", permissionResource), ("CROPAutoUpdaterFunction", functionResource c p (src.map rstrip))]) "CROPAutoUpdaterFunction" =
        some (Val.obj (functionResourceEntries c p (src.map rstrip))) := by
      rw [olookup_append_of_not_has _ _ _ hF]
      simp [olookup, functionResource]
    have hfnc : ohas (functionResourceEntries c p (src.map rstrip)) "Condition" = false := by
      simp [functionResourceEntries, ohas, olookup]
    have h9 : (Val.obj (oset (oset (oset o "Resources" (Val.obj (res ++ [("CROPAutoUpdaterRole", roleResource), ("CROPAutoUpdaterEvent", eventResource interval), ("CROPAutoUpdaterEventPermission", permissionResource), ("CROPAutoUpdaterFunction", functionResource c p (src.map rstrip))]))) "Parameters" (Val.obj (pars ++ [("AutoUpdates", autoUpdatesParam)]))) "Conditions" (Val.obj (conds0 ++ [("CROPAutoUpdating", cropCondition)])))).setItem3 "Resources" "CROPAutoUpdaterFunction" "Condition"
        (Val.str "CROPAutoUpdating") = .ok (Val.obj (oset (oset (oset (oset o "Resources" (Val.obj (res ++ [("CROPAutoUpdaterRole", roleResource), ("CROPAutoUpdaterEvent", eventResource interval), ("CROPAutoUpdaterEventPermission", permissionResource), ("CROPAutoUpdaterFunction", functionResource c p (src.map rstrip))]))) "Parameters" (Val.obj (pars ++ [("AutoUpdates", autoUpdatesParam)]))) "Conditions" (Val.obj (conds0 ++ [("CROPAutoUpdating", cropCondition)]))) "Resources" (Val.obj (res ++ [("CROPAutoUpdaterRole", roleResource), ("CROPAutoUpdaterEvent", eventResource interval), ("CROPAutoUpdaterEventPermission", permissionResource), ("CROPAutoUpdaterFunction", Val.obj (functionResourceEntries c p (src.map rstrip) ++ [("Condition", Val.str "CROPAutoUpdating")]))])))) := by
      rw [setItem3_obj _ _ _ _ _ _ _ hlr hfn, oset_of_not_has _ _ _ hfnc,
        oset_append_of_not_has _ _ _ _ hF]
      simp [oset]
    have hpm : olookup (res ++ [("CROPAutoUpdaterRole", roleResource), ("CROPAutoUpdaterEvent", eventResource interval), ("CROPAutoUpdaterEventPermission", permissionResource), ("CROPAutoUpdaterFunction", Val.obj (functionResourceEntries c p (src.map rstrip) ++ [("Condition", Val.str "CROPAutoUpdating")]))]) "CROPAutoUpdaterEventPermission" =
        some (Val.obj permissionResourceEntries) := by
      rw [olookup_append_of_not_has _ _ _ hP]
      simp [olookup, permissionResource]
    have hpmc : ohas permissionResourceEntries "Condition" = false := by
      simp [permissionResourceEntries, ohas, olookup]
    have h10 : (Val.obj (oset (oset (oset (oset o "Resources" (Val.obj (res ++ [("CROPAutoUpdaterRole", roleResource), ("CROPAutoUpdaterEvent", eventResource interval), ("CROPAutoUpdaterEventPermission", permissionResource), ("CROPAutoUpdaterFunction", functionResource c p (src.map rstrip))]))) "Parameters" (Val.obj (pars ++ [("AutoUpdates", autoUpdatesParam)]))) "Conditions" (Val.obj (conds0 ++ [("CROPAutoUpdating", cropCondition)]))) "Resources" (Val.obj (res ++ [("CROPAutoUpdaterRole", roleResource), ("CROPAutoUpdaterEvent", eventResource interval), ("CROPAutoUpdaterEventPermission", permissionResource), ("CROPAutoUpdaterFunction", Val.obj (functionResourceEntries c p (src.map rstrip) ++ [("Condition", Val.str "CROPAutoUpdating")]))])))).setItem3 "Resources" "CROPAutoUpdaterEventPermission"
        "Condition" (Val.str "CROPAutoUpdating") = .ok (Val.obj (oset (oset (oset (oset o "Resources" (Val.obj (res ++ [("CROPAutoUpdaterRole", roleResource), ("CROPAutoUpdaterEvent", eventResource interval), ("CROPAutoUpdaterEventPermission", permissionResource), ("CROPAutoUpdaterFunction", functionResource c p (src.map rstrip))]))) "Parameters" (Val.obj (pars ++ [("AutoUpdates", autoUpdatesParam)]))) "Conditions" (Val.obj (conds0 ++ [("CROPAutoUpdating", cropCondition)]))) "Resources" (Val.obj (res ++ [("CROPAutoUpdaterRole", roleResource), ("CROPAutoUpdaterEvent", eventResource interval), ("CROPAutoUpdaterEventPermission", Val.obj (permissionResourceEntries ++ [("Condition", Val.str "CROPAutoUpdating")])), ("CROPAutoUpdaterFunction", Val.obj (functionResourceEntries c p (src.map rstrip) ++ [("Condition", Val.str "CROPAutoUpdating")]))])))) := by
      rw [setItem3_obj _ _ _ _ _ _ _ (olookup_oset_self _ _ _) hpm,
        oset_of_not_has _ _ _ hpmc, oset_append_of_not_has _ _ _ _ hP, oset_oset_self]
      simp [oset]
    have hev : olookup (res ++ [("CROPAutoUpdaterRole", roleResource), ("CROPAutoUpdaterEvent", eventResource interval), ("CROPAutoUpdaterEventPermission", Val.obj (permissionResourceEntries ++ [("Condition", Val.str "CROPAutoUpdating")])), ("CROPAutoUpdaterFunction", Val.obj (functionResourceEntries c p (src.map rstrip) ++ [("Condition", Val.str "CROPAutoUpdating")]))]) "CROPAutoUpdaterEvent" =
        some (Val.obj (eventResourceEntries interval)) := by
      rw [olookup_append_of_not_has _ _ _ hE]
      simp [olookup, eventResource]
    have hevc : ohas (eventResourceEntries interval) "Condition" = false := by
      simp [eventResourceEntries, ohas, olookup]
    have h11 : (Val.obj (oset (oset (oset (oset o "Resources" (Val.obj (res ++ [("CROPAutoUpdaterRole", roleResource), ("CROPAutoUpdaterEvent", eventResource interval), ("CROPAutoUpdaterEventPermission", permissionResource), ("CROPAutoUpdaterFunction", functionResource c p (src.map rstrip))]))) "Parameters" (Val.obj (pars ++ [("AutoUpdates", autoUpdatesParam)]))) "Conditions" (Val.obj (conds0 ++ [("CROPAutoUpdating", cropCondition)]))) "Resources" (Val.obj (res ++ [("CROPAutoUpdaterRole", roleResource), ("CROPAutoUpdaterEvent", eventResource interval), ("CROPAutoUpdaterEventPermission", Val.obj (permissionResourceEntries ++ [("Condition", Val.str "CROPAutoUpdating")])), ("CROPAutoUpdaterFunction", Val.obj (functionResourceEntries c p (src.map rstrip) ++ [("Condition", Val.str "CROPAutoUpdating")]))])))).setItem3 "Resources" "CROPAutoUpdaterEvent"
        "Condition" (Val.str "CROPAutoUpdating") = .ok (Val.obj (oset (oset (oset (oset o "Resources" (Val.obj (res ++ [("CROPAutoUpdaterRole", roleResource), ("CROPAutoUpdaterEvent", eventResource interval), ("CROPAutoUpdaterEventPermission", permissionResource), ("CROPAutoUpdaterFunction", functionResource c p (src.map rstrip))]))) "Parameters" (Val.obj (pars ++ [("AutoUpdates", autoUpdatesParam)]))) "Conditions" (Val.obj (conds0 ++ [("CROPAutoUpdating", cropCondition)]))) "Resources" (Val.obj (res ++ [("CROPAutoUpdaterRole", roleResource), ("CROPAutoUpdaterEvent", Val.obj (eventResourceEntries interval ++ [("Condition", Val.str "CROPAutoUpdating")])), ("CROPAutoUpdaterEventPermission", Val.obj (permissionResourceEntries ++ [("Condition", Val.str "CROPAutoUpdating")])), ("CROPAutoUpdaterFunction", Val.obj (functionResourceEntries c p (src.map rstrip) ++ [("Condition", Val.str "CROPAutoUpdating")]))])))) := by
      rw [setItem3_obj _ _ _ _ _ _ _ (olookup_oset_self _ _ _) hev,
        oset_of_not_has _ _ _ hevc, oset_append_of_not_has _ _ _ _ hE, oset_oset_self]
      simp [oset]
    have hrl : olookup (res ++ [("CROPAutoUpdaterRole", roleResource), ("CROPAutoUpdaterEvent", Val.obj (eventResourceEntries interval ++ [("Condition", Val.str "CROPAutoUpdating")])), ("CROPAutoUpdaterEventPermission", Val.obj (permissionResourceEntries ++ [("Condition", Val.str "CROPAutoUpdating")])), ("CROPAutoUpdaterFunction", Val.obj (functionResourceEntries c p (src.map rstrip) ++ [("Condition", Val.str "CROPAutoUpdating")]))]) "CROPAutoUpdaterRole" = some (Val.obj roleResourceEntries) := by
      rw [olookup_append_of_not_has _ _ _ hR]
      simp [olookup, roleResource]
    have hrlc : ohas roleResourceEntries "Condition" = false := by
      simp [roleResourceEntries, ohas, olookup]
    have h12 : (Val.obj (oset (oset (oset (oset o "Resources" (Val.obj (res ++ [("CROPAutoUpdaterRole", roleResource), ("CROPAutoUpdaterEvent", eventResource interval), ("CROPAutoUpdaterEventPermission", permissionResource), ("CROPAutoUpdaterFunction", functionResource c p (src.map rstrip))]))) "Parameters" (Val.obj (pars ++ [("AutoUpdates", autoUpdatesParam)]))) "Conditions" (Val.obj (conds0 ++ [("CROPAutoUpdating", cropCondition)]))) "Resources" (Val.obj (res ++ [("CROPAutoUpdaterRole", roleResource), ("CROPAutoUpdaterEvent", Val.obj (eventResourceEntries interval ++ [("Condition", Val.str "CROPAutoUpdating")])), ("CROPAutoUpdaterEventPermission", Val.obj (permissionResourceEntries ++ [("Condition", Val.str "CROPAutoUpdating")])), ("CROPAutoUpdaterFunction", Val.obj (functionResourceEntries c p (src.map rstrip) ++ [("Condition", Val.str "CROPAutoUpdating")]))])))).setItem3 "Resources" "CROPAutoUpdaterRole"
        "Condition" (Val.str "CROPAutoUpdating") = .ok (Val.obj (oset (oset (oset (oset o "Resources" (Val.obj (res ++ [("CROPAutoUpdaterRole", roleResource), ("CROPAutoUpdaterEvent", eventResource interval), ("CROPAutoUpdaterEventPermission", permissionResource), ("CROPAutoUpdaterFunction", functionResource c p (src.map rstrip))]))) "Parameters" (Val.obj (pars ++ [("AutoUpdates", autoUpdatesParam)]))) "Conditions" (Val.obj (conds0 ++ [("CROPAutoUpdating", cropCondition)]))) "Resources" (Val.obj (res ++ [("CROPAutoUpdaterRole", Val.obj (roleResourceEntries ++ [("Condition", Val.str "CROPAutoUpdating")])), ("CROPAutoUpdaterEvent", Val.obj (eventResourceEntries interval ++ [("Condition", Val.str "CROPAutoUpdating")])), ("CROPAutoUpdaterEventPermission", Val.obj (permissionResourceEntries ++ [("Condition", Val.str "CROPAutoUpdating")])), ("CROPAutoUpdaterFunction", Val.obj (functionResourceEntries c p (src.map rstrip) ++ [("Condition", Val.str "CROPAutoUpdating")]))])))) := by
      rw [setItem3_obj _ _ _ _ _ _ _ (olookup_oset_self _ _ _) hrl,
        oset_of_not_has _ _ _ hrlc, oset_append_of_not_has _ _ _ _ hR, oset_oset_self]
      simp [oset]
    simp only [injectBody, h1, h2, h3, h4, h5, h6, h7, h8, h9, h10, h11, h12, withState,
      Bind.bind, Except.bind, hiv, if_false, Bool.false_eq_true, pure, Except.pure]
  · have h7 : (Val.obj (oset (oset o "Resources" (Val.obj (res ++ [("CROPAutoUpdaterRole", roleResource), ("CROPAutoUpdaterEvent", eventResource interval), ("CROPAutoUpdaterEventPermission", permissionResource), ("CROPAutoUpdaterFunction", functionResource c p (src.map rstrip))]))) "Parameters" (Val.obj (pars ++ [("AutoUpdates", autoUpdatesParam)])))).setdefault "Conditions" (Val.obj []) = .ok (Val.obj (oset (oset o "Resources" (Val.obj (res ++ [("CROPAutoUpdaterRole", roleResource), ("CROPAutoUpdaterEvent", eventResource interval), ("CROPAutoUpdaterEventPermission", permissionResource), ("CROPAutoUpdaterFunction", functionResource c p (src.map rstrip))]))) "Parameters" (Val.obj (pars ++ [("AutoUpdates", autoUpdatesParam)])))) := by
      refine setdefault_present _ _ _ ?_
      rw [ohas_oset_ne _ _ _ _ (by decide), ohas_oset_ne _ _ _ _ (by decide)]
      simp [ohas, hcoB]
    have hlc : olookup (oset (oset o "Resources" (Val.obj (res ++ [("CROPAutoUpdaterRole", roleResource), ("CROPAutoUpdaterEvent", eventResource interval), ("CROPAutoUpdaterEventPermission", permissionResource), ("CROPAutoUpdaterFunction", functionResource c p (src.map rstrip))]))) "Parameters" (Val.obj (pars ++ [("AutoUpdates", autoUpdatesParam)]))) "Conditions" = some (Val.obj conds0) := by
      rw [olookup_oset_ne _ _ _ _ (by decide), olookup_oset_ne _ _ _ _ (by decide), hcoB]
    have h8 : (Val.obj (oset (oset o "Resources" (Val.obj (res ++ [("CROPAutoUpdaterRole", roleResource), ("CROPAutoUpdaterEvent", eventResource interval), ("CROPAutoUpdaterEventPermission", permissionResource), ("CROPAutoUpdaterFunction", functionResource c p (src.map rstrip))]))) "Parameters" (Val.obj (pars ++ [("AutoUpdates", autoUpdatesParam)])))).setItem2 "Conditions" "CROPAutoUpdating" cropCondition =
        .ok (Val.obj (oset (oset (oset o "Resources" (Val.obj (res ++ [("CROPAutoUpdaterRole", roleResource), ("CROPAutoUpdaterEvent", eventResource interval), ("CROPAutoUpdaterEventPermission", permissionResource), ("CROPAutoUpdaterFunction", functionResource c p (src.map rstrip))]))) "Parameters" (Val.obj (pars ++ [("AutoUpdates", autoUpdatesParam)]))) "Conditions" (Val.obj (conds0 ++ [("CROPAutoUpdating", cropCondition)])))) := by
      rw [setItem2_obj _ _ _ _ _ hlc, oset_of_not_has _ _ _ hcc]
    have hlr : olookup (oset (oset (oset o "Resources" (Val.obj (res ++ [("CROPAutoUpdaterRole", roleResource), ("CROPAutoUpdaterEvent", eventResource interval), ("CROPAutoUpdaterEventPermission", permissionResource), ("CROPAutoUpdaterFunction", functionResource c p (src.map rstrip))]))) "Parameters" (Val.obj (pars ++ [("AutoUpdates", autoUpdatesParam)]))) "Conditions" (Val.obj (conds0 ++ [("CROPAutoUpdating", cropCondition)]))) "Resources" = some (Val.obj (res ++ [("CROPAutoUpdaterRole", roleResource), ("CROPAutoUpdaterEvent", eventResource interval), ("CROPAutoUpdaterEventPermission", permissionResource), ("CROPAutoUpdaterFunction", functionResource c p (src.map rstrip))])) := by
      rw [olookup_oset_ne _ _ _ _ (by decide), olookup_oset_ne _ _ _ _ (by decide),
        olookup_oset_self]
    have hfn : olookup (res ++ [("CROPAutoUpdaterRole", roleResource), ("CROPAutoUpdaterEvent", eventResource interval), ("CROPAutoUpdaterEventPermission", permissionResource), ("CROPAutoUpdaterFunction", functionResource c p (src.map rstrip))]) "CROPAutoUpdaterFunction" =
        some (Val.obj (functionResourceEntries c p (src.map rstrip))) := by
      rw [olookup_append_of_not_has _ _ _ hF]
      simp [olookup, functionResource]
    have hfnc : ohas (functionResourceEntries c p (src.map rstrip)) "Condition" = false := by
      simp [functionResourceEntries, ohas, olookup]
    have h9 : (Val.obj (oset (oset (oset o "Resources" (Val.obj (res ++ [("CROPAutoUpdaterRole", roleResource), ("CROPAutoUpdaterEvent", eventResource interval), ("CROPAutoUpdaterEventPermission", permissionResource), ("CROPAutoUpdaterFunction", functionResource c p (src.map rstrip))]))) "Parameters" (Val.obj (pars ++ [("AutoUpdates", autoUpdatesParam)]))) "Conditions" (Val.obj (conds0 ++ [("CROPAutoUpdating", cropCondition)])))).setItem3 "Resources" "CROPAutoUpdaterFunction" "Condition"
        (Val.str "CROPAutoUpdating") = .ok (Val.obj (oset (oset (oset (oset o "Resources" (Val.obj (res ++ [("CROPAutoUpdaterRole", roleResource), ("CROPAutoUpdaterEvent", eventResource interval), ("CROPAutoUpdaterEventPermission", permissionResource), ("CROPAutoUpdaterFunction", functionResource c p (src.map rstrip))]))) "Parameters" (Val.obj (pars ++ [("AutoUpdates", autoUpdatesParam)]))) "Conditions" (Val.obj (conds0 ++ [("CROPAutoUpdating", cropCondition)]))) "Resources" (Val.obj (res ++ [("CROPAutoUpdaterRole", roleResource), ("CROPAutoUpdaterEvent", eventResource interval), ("CROPAutoUpdaterEventPermission", permissionResource), ("CROPAutoUpdaterFunction", Val.obj (functionResourceEntries c p (src.map rstrip) ++ [("Condition", Val.str "CROPAutoUpdating")]))])))) := by
      rw [setItem3_obj _ _ _ _ _ _ _ hlr hfn, oset_of_not_has _ _ _ hfnc,
        oset_append_of_not_has _ _ _ _ hF]
      simp [oset]
    have hpm : olookup (res ++ [("CROPAutoUpdaterRole", roleResource), ("CROPAutoUpdaterEvent", eventResource interval), ("CROPAutoUpdaterEventPermission", permissionResource), ("CROPAutoUpdaterFunction", Val.obj (functionResourceEntries c p (src.map rstrip) ++ [("Condition", Val.str "CROPAutoUpdating")]))]) "CROPAutoUpdaterEventPermission" =
        some (Val.obj permissionResourceEntries) := by
      rw [olookup_append_of_not_has _ _ _ hP]
      simp [olookup, permissionResource]
    have hpmc : ohas permissionResourceEntries "Condition" = false := by
      simp [permissionResourceEntries, ohas, olookup]
    have h10 : (Val.obj (oset (oset (oset (oset o "Resources" (Val.obj (res ++ [("CROPAutoUpdaterRole", roleResource), ("CROPAutoUpdaterEvent", eventResource interval), ("CROPAutoUpdaterEventPermission", permissionResource), ("CROPAutoUpdaterFunction", functionResource c p (src.map rstrip))]))) "Parameters" (Val.obj (pars ++ [("AutoUpdates", autoUpdatesParam)]))) "Conditions" (Val.obj (conds0 ++ [("CROPAutoUpdating", cropCondition)]))) "Resources" (Val.obj (res ++ [("CROPAutoUpdaterRole", roleResource), ("CROPAutoUpdaterEvent", eventResource interval), ("CROPAutoUpdaterEventPermission", permissionResource), ("CROPAutoUpdaterFunction", Val.obj (functionResourceEntries c p (src.map rstrip) ++ [("Condition", Val.str "CROPAutoUpdating")]))])))).setItem3 "Resources" "CROPAutoUpdaterEventPermission"
        "Condition" (Val.str "CROPAutoUpdating") = .ok (Val.obj (oset (oset (oset (oset o "Resources" (Val.obj (res ++ [("CROPAutoUpdaterRole", roleResource), ("CROPAutoUpdaterEvent", eventResource interval), ("CROPAutoUpdaterEventPermission", permissionResource), ("CROPAutoUpdaterFunction", functionResource c p (src.map rstrip))]))) "Parameters" (Val.obj (pars ++ [("AutoUpdates", autoUpdatesParam)]))) "Conditions" (Val.obj (conds0 ++ [("CROPAutoUpdating", cropCondition)]))) "Resources" (Val.obj (res ++ [("CROPAutoUpdaterRole", roleResource), ("CROPAutoUpdaterEvent", eventResource interval), ("CROPAutoUpdaterEventPermission", Val.obj (permissionResourceEntries ++ [("Condition", Val.str "CROPAutoUpdating")])), ("CROPAutoUpdaterFunction", Val.obj (functionResourceEntries c p (src.map rstrip) ++ [("Condition", Val.str "CROPAutoUpdating")]))])))) := by
      rw [setItem3_obj _ _ _ _ _ _ _ (olookup_oset_self _ _ _) hpm,
        oset_of_not_has _ _ _ hpmc, oset_append_of_not_has _ _ _ _ hP, oset_oset_self]
      simp [oset]
    have hev : olookup (res ++ [("CROPAutoUpdaterRole", roleResource), ("CROPAutoUpdaterEvent", eventResource interval), ("CROPAutoUpdaterEventPermission", Val.obj (permissionResourceEntries ++ [("Condition", Val.str "CROPAutoUpdating")])), ("CROPAutoUpdaterFunction", Val.obj (functionResourceEntries c p (src.map rstrip) ++ [("Condition", Val.str "CROPAutoUpdating")]))]) "CROPAutoUpdaterEvent" =
        some (Val.obj (eventResourceEntries interval)) := by
      rw [olookup_append_of_not_has _ _ _ hE]
      simp [olookup, eventResource]
    have hevc : ohas (eventResourceEntries interval) "Condition" = false := by
      simp [eventResourceEntries, ohas, olookup]
    have h11 : (Val.obj (oset (oset (oset (oset o "Resources" (Val.obj (res ++ [("CROPAutoUpdaterRole", roleResource), ("CROPAutoUpdaterEvent", eventResource interval), ("CROPAutoUpdaterEventPermission", permissionResource), ("CROPAutoUpdaterFunction", functionResource c p (src.map rstrip))]))) "Parameters" (Val.obj (pars ++ [("AutoUpdates", autoUpdatesParam)]))) "Conditions" (Val.obj (conds0 ++ [("CROPAutoUpdating", cropCondition)]))) "Resources" (Val.obj (res ++ [("CROPAutoUpdaterRole", roleResource), ("CROPAutoUpdaterEvent", eventResource interval), ("CROPAutoUpdaterEventPermission", Val.obj (permissionResourceEntries ++ [("Condition", Val.str "CROPAutoUpdating")])), ("CROPAutoUpdaterFunction", Val.obj (functionResourceEntries c p (src.map rstrip) ++ [("Condition", Val.str "CROPAutoUpdating")]))])))).setItem3 "Resources" "CROPAutoUpdaterEvent"
        "Condition" (Val.str "CROPAutoUpdating") = .ok (Val.obj (oset (oset (oset (oset o "Resources" (Val.obj (res ++ [("CROPAutoUpdaterRole", roleResource), ("CROPAutoUpdaterEvent", eventResource interval), ("CROPAutoUpdaterEventPermission", permissionResource), ("CROPAutoUpdaterFunction", functionResource c p (src.map rstrip))]))) "Parameters" (Val.obj (pars ++ [("AutoUpdates", autoUpdatesParam)]))) "Conditions" (Val.obj (conds0 ++ [("CROPAutoUpdating", cropCondition)]))) "Resources" (Val.obj (res ++ [("CROPAutoUpdaterRole", roleResource), ("CROPAutoUpdaterEvent", Val.obj (eventResourceEntries interval ++ [("Condition", Val.str "CROPAutoUpdating")])), ("CROPAutoUpdaterEventPermission", Val.obj (permissionResourceEntries ++ [("Condition", Val.str "CROPAutoUpdating")])), ("CROPAutoUpdaterFunction", Val.obj (functionResourceEntries c p (src.map rstrip) ++ [("Condition", Val.str "CROPAutoUpdating")]))])))) := by
      rw [setItem3_obj _ _ _ _ _ _ _ (olookup_oset_self _ _ _) hev,
        oset_of_not_has _ _ _ hevc, oset_append_of_not_has _ _ _ _ hE, oset_oset_self]
      simp [oset]
    have hrl : olookup (res ++ [("CROPAutoUpdaterRole", roleResource), ("CROPAutoUpdaterEvent", Val.obj (eventResourceEntries interval ++ [("Condition", Val.str "CROPAutoUpdating")])), ("CROPAutoUpdaterEventPermission", Val.obj (permissionResourceEntries ++ [("Condition", Val.str "CROPAutoUpdating")])), ("CROPAutoUpdaterFunction", Val.obj (functionResourceEntries c p (src.map rstrip) ++ [("Condition", Val.str "CROPAutoUpdating")]))]) "CROPAutoUpdaterRole" = some (Val.obj roleResourceEntries) := by
      rw [olookup_append_of_not_has _ _ _ hR]
      simp [olookup, roleResource]
    have hrlc : ohas roleResourceEntries "Condition" = false := by
      simp [roleResourceEntries, ohas, olookup]
    have h12 : (Val.obj (oset (oset (oset (oset o "Resources" (Val.obj (res ++ [("CROPAutoUpdaterRole", roleResource), ("CROPAutoUpdaterEvent", eventResource interval), ("CROPAutoUpdaterEventPermission", permissionResource), ("CROPAutoUpdaterFunction", functionResource c p (src.map rstrip))]))) "Parameters" (Val.obj (pars ++ [("AutoUpdates", autoUpdatesParam)]))) "Conditions" (Val.obj (conds0 ++ [("CROPAutoUpdating", cropCondition)]))) "Resources" (Val.obj (res ++ [("CROPAutoUpdaterRole", roleResource), ("CROPAutoUpdaterEvent", Val.obj (eventResourceEntries interval ++ [("Condition", Val.str "CROPAutoUpdating")])), ("CROPAutoUpdaterEventPermission", Val.obj (permissionResourceEntries ++ [("Condition", Val.str "CROPAutoUpdating")])), ("CROPAutoUpdaterFunction", Val.obj (functionResourceEntries c p (src.map rstrip) ++ [("Condition", Val.str "CROPAutoUpdating")]))])))).setItem3 "Resources" "CROPAutoUpdaterRole"
        "Condition" (Val.str "CROPAutoUpdating") = .ok (Val.obj (oset (oset (oset (oset o "Resources" (Val.obj (res ++ [("CROPAutoUpdaterRole", roleResource), ("CROPAutoUpdaterEvent", eventResource interval), ("CROPAutoUpdaterEventPermission", permissionResource), ("CROPAutoUpdaterFunction", functionResource c p (src.map rstrip))]))) "Parameters" (Val.obj (pars ++ [("AutoUpdates", autoUpdatesParam)]))) "Conditions" (Val.obj (conds0 ++ [("CROPAutoUpdating", cropCondition)]))) "Resources" (Val.obj (res ++ [("CROPAutoUpdaterRole", Val.obj (roleResourceEntries ++ [("Condition", Val.str "CROPAutoUpdating")])), ("CROPAutoUpdaterEvent", Val.obj (eventResourceEntries interval ++ [("Condition", Val.str "CROPAutoUpdating")])), ("CROPAutoUpdaterEventPermission", Val.obj (permissionResourceEntries ++ [("Condition", Val.str "CROPAutoUpdating")])), ("CROPAutoUpdaterFunction", Val.obj (functionResourceEntries c p (src.map rstrip) ++ [("Condition", Val.str "CROPAutoUpdating")]))])))) := by
      rw [setItem3_obj _ _ _ _ _ _ _ (olookup_oset_self _ _ _) hrl,
        oset_of_not_has _ _ _ hrlc, oset_append_of_not_has _ _ _ _ hR, oset_oset_self]
      simp [oset]
    simp only [injectBody, h1, h2, h3, h4, h5, h6, h7, h8, h9, h10, h11, h12, withState,
      Bind.bind, Except.bind, hiv, if_false, Bool.false_eq_true, pure, Except.pure]


/-! ## Claims about the Decision Engine -/

/-- C1: when the product-describe call succeeds and the instance status
is settled, an update call is issued if and only if the creation time of
the last artifact is strictly greater than the last-updated time when
present, else the creation time; on an equal or older artifact no update
call is made. -/
theorem decisionCorrectness (env : Env) (arts : List Artifact) (latest : Artifact)
    (hdp : env.describeProduct = some arts)
    (hlast : arts.getLast? = some latest)
    (hst : env.stack.stackStatus ∈ settledStatuses) :
    ∃ calls, handler env = .ok calls ∧
      ((∃ c ∈ calls, c.isUpdate = true) ↔ lastActionTime env.stack < latest.createdTime) := by
  by_cases hlt : lastActionTime env.stack < latest.createdTime
  · have hh : handler env = .ok [.describeProduct env.productId, .describeStacks env.stackName,
        .updateProvisionedProduct (provisionedProductIdOf env.stackName) env.productId
          latest.id (preservedParams env.stack.parameters)] := by
      unfold handler
      rw [hdp]
      simp [hst, hlast, hlt]
    refine ⟨_, hh, ?_⟩
    simp [hlt, Call.isUpdate]
  · have hh : handler env = .ok [.describeProduct env.productId, .describeStacks env.stackName] := by
      unfold handler
      rw [hdp]
      simp [hst, hlast, hlt]
    refine ⟨_, hh, ?_⟩
    simp [hlt, Call.isUpdate]

/-- Witness for C1 at a concrete invocation: the stack was created at
time 5, never updated, and the latest artifact was created at time 10,
so the update fires. -/
theorem decisionCorrectness_witness :
    ∃ calls, handler ⟨"prod-1", "SC-p-x-y", "port-1", "arn:r", some [⟨"pa-1", 10⟩],
        ⟨"CREATE_COMPLETE", 5, none, []⟩⟩ = .ok calls ∧
      ((∃ c ∈ calls, c.isUpdate = true) ↔
        lastActionTime ⟨"CREATE_COMPLETE", 5, none, []⟩ < (10 : Int)) :=
  decisionCorrectness _ [⟨"pa-1", 10⟩] ⟨"pa-1", 10⟩ rfl rfl (by decide)

/-- C5: when the product-describe call fails, exactly one
principal-association call is made and the invocation terminates
successfully without an instance status read or any update call. -/
theorem enrollmentFallback (env : Env)
    (h : env.describeProduct = none) :
    ∃ calls, handler env = .ok calls ∧
      calls.countP Call.isAssociate = 1 ∧
      calls.countP Call.isDescribeStacks = 0 ∧
      calls.countP Call.isUpdate = 0 := by
  refine ⟨_, by unfold handler; rw [h], ?_⟩
  simp [List.countP, List.countP.go, Call.isAssociate, Call.isDescribeStacks, Call.isUpdate]

/-- Witness for C5: an invocation whose describe-product call fails. -/
theorem enrollmentFallback_witness :
    ∃ calls, handler ⟨"prod-1", "SC-p-x-y", "port-1", "arn:r", none,
        ⟨"CREATE_COMPLETE", 5, none, []⟩⟩ = .ok calls ∧
      calls.countP Call.isAssociate = 1 ∧
      calls.countP Call.isDescribeStacks = 0 ∧
      calls.countP Call.isUpdate = 0 :=
  enrollmentFallback _ rfl

/-- C6: an unsettled instance status terminates the invocation
successfully right after the status read: the trace is exactly the
describe-product and describe-stacks calls, with no update and no
further catalog call. -/
theorem busyGuard (env : Env) (arts : List Artifact)
    (hdp : env.describeProduct = some arts)
    (hst : env.stack.stackStatus ∉ settledStatuses) :
    handler env = .ok [.describeProduct env.productId, .describeStacks env.stackName] ∧
      ∀ calls, handler env = .ok calls →
        calls.countP Call.isUpdate = 0 ∧ calls.countP Call.isAssociate = 0 := by
  have hh : handler env = .ok [.describeProduct env.productId, .describeStacks env.stackName] := by
    unfold handler
    rw [hdp]
    simp [hst]
  refine ⟨hh, fun calls hc => ?_⟩
  rw [hh] at hc
  cases hc
  simp [List.countP, List.countP.go, Call.isUpdate, Call.isAssociate]

/-- Witness for C6: an invocation that reads status
`UPDATE_IN_PROGRESS`. -/
theorem busyGuard_witness :
    handler ⟨"prod-1", "SC-p-x-y", "port-1", "arn:r", some [⟨"pa-1", 10⟩],
        ⟨"UPDATE_IN_PROGRESS", 5, none, []⟩⟩ =
      .ok [.describeProduct "prod-1", .describeStacks "SC-p-x-y"] ∧
      ∀ calls, handler ⟨"prod-1", "SC-p-x-y", "port-1", "arn:r", some [⟨"pa-1", 10⟩],
          ⟨"UPDATE_IN_PROGRESS", 5, none, []⟩⟩ = .ok calls →
        calls.countP Call.isUpdate = 0 ∧ calls.countP Call.isAssociate = 0 :=
  busyGuard _ [⟨"pa-1", 10⟩] rfl (by decide)

/-- C7: any update call issued by the handler carries the derived
provisioned-product id, the product id and the id of the last artifact,
and its parameter list has exactly one entry per current stack parameter
key, each flagged use-previous-value with no value payload. -/
theorem parameterPreservation (env : Env) (calls : List Call)
    (i p a : String) (ps : List UpdateParam)
    (hok : handler env = .ok calls)
    (hmem : Call.updateProvisionedProduct i p a ps ∈ calls) :
    i = provisionedProductIdOf env.stackName ∧
    p = env.productId ∧
    (∃ arts latest, env.describeProduct = some arts ∧
      arts.getLast? = some latest ∧ a = latest.id) ∧
    ps = preservedParams env.stack.parameters ∧
    ps.map (fun q => q.key) = env.stack.parameters.map (fun q => q.parameterKey) ∧
    (∀ q ∈ ps, q.usePreviousValue = true ∧ q.value = none) := by
  unfold handler at hok
  cases hdp : env.describeProduct with
  | none =>
      rw [hdp] at hok
      cases hok
      simp at hmem
  | some arts =>
      rw [hdp] at hok
      by_cases hst : env.stack.stackStatus ∈ settledStatuses
      · simp only [hst, if_true] at hok
        cases hlast : arts.getLast? with
        | none =>
            rw [hlast] at hok
            cases hok
        | some latest =>
            rw [hlast] at hok
            by_cases hlt : lastActionTime env.stack < latest.createdTime
            · simp only [hlt, if_true] at hok
              cases hok
              simp at hmem
              obtain ⟨hi, hp, ha, hps⟩ := hmem
              subst hi
              subst hp
              subst ha
              subst hps
              refine ⟨rfl, rfl, ⟨arts, latest, rfl, hlast, rfl⟩, rfl, ?_, ?_⟩
              · simp [preservedParams]
              · intro q hq
                simp [preservedParams, List.mem_map] at hq
                obtain ⟨pp, hpp, rfl⟩ := hq
                exact ⟨rfl, rfl⟩
            · simp only [hlt, if_false] at hok
              cases hok
              simp at hmem
      · simp only [hst, if_false] at hok
        cases hok
        simp at hmem

/-- Witness for C7 at a concrete invocation with two stack parameters. -/
theorem parameterPreservation_witness :
    ("pp-y" : String) = provisionedProductIdOf "SC-p-pp-y" ∧
    ("prod-1" : String) = "prod-1" ∧
    (∃ arts latest,
      (some [(⟨"pa-1", 10⟩ : Artifact)] : Option (List Artifact)) = some arts ∧
      arts.getLast? = some latest ∧ ("pa-1" : String) = latest.id) ∧
    [(⟨"K1", true, none⟩ : UpdateParam), ⟨"K2", true, none⟩] =
      preservedParams [⟨"K1", "v1"⟩, ⟨"K2", "v2"⟩] ∧
    ([(⟨"K1", true, none⟩ : UpdateParam), ⟨"K2", true, none⟩].map (fun q => q.key)) =
      ([(⟨"K1", "v1"⟩ : StackParam), ⟨"K2", "v2"⟩].map (fun q => q.parameterKey)) ∧
    (∀ q ∈ [(⟨"K1", true, none⟩ : UpdateParam), ⟨"K2", true, none⟩],
      q.usePreviousValue = true ∧ q.value = none) :=
  parameterPreservation
    ⟨"prod-1", "SC-p-pp-y", "port-1", "arn:r", some [⟨"pa-1", 10⟩],
      ⟨"CREATE_COMPLETE", 5, none, [⟨"K1", "v1"⟩, ⟨"K2", "v2"⟩]⟩⟩
    [.describeProduct "prod-1", .describeStacks "SC-p-pp-y",
     .updateProvisionedProduct "pp-y" "prod-1" "pa-1" [⟨"K1", true, none⟩, ⟨"K2", true, none⟩]]
    "pp-y" "prod-1" "pa-1" [⟨"K1", true, none⟩, ⟨"K2", true, none⟩]
    rfl (by decide)


/-! ## Claims about the Template Transform Pipeline -/

/-- Does the dictionary at key `k` of the template contain the key
`id`?  (False when the template or that value is not a dictionary.) -/
def keyInObjAt (t : Val) (k id : String) : Bool :=
  match t with
  | .obj o =>
      match olookup o k with
      | some (.obj inner) => ohas inner id
      | _ => false
  | _ => false

/-- A collision in the sense of the `inject_autoupdate` guard: one of
the four reserved logical ids in `Resources`, the reserved parameter id
in `Parameters`, or the reserved condition id in `Conditions`. -/
def hasCollision (t : Val) : Bool :=
  (reservedResourceIds.any fun id => keyInObjAt t "Resources" id) ||
  keyInObjAt t "Parameters" "AutoUpdates" ||
  keyInObjAt t "Conditions" "CROPAutoUpdating"

/-- C2: on any template with a reserved-id collision,
`inject_autoupdate` raises and the template is returned exactly as it
was — no mutation has happened. -/
theorem collisionGuard (t : Val) (c p : String) (force : Bool) (interval : Int)
    (src : List String) (h : hasCollision t = true) :
    ∃ e, inject_autoupdate t c p force interval src = .error (e, t) := by
  suffices hs : ∃ e, checkCollisions t = .error e by
    obtain ⟨e, he⟩ := hs
    exact ⟨e, by simp [inject_autoupdate, he]⟩
  cases t with
  | str s => simp [hasCollision, keyInObjAt] at h
  | int n => simp [hasCollision, keyInObjAt] at h
  | bool b => simp [hasCollision, keyInObjAt] at h
  | list l => simp [hasCollision, keyInObjAt] at h
  | obj o =>
      cases hre : olookup o "Resources" with
      | none =>
          refine ⟨PyErr.keyError "Resources", ?_⟩
          simp [checkCollisions, Val.getItem, hre, Bind.bind, Except.bind]
      | some resources =>
          cases resources with
          | str s =>
              refine ⟨PyErr.typeError "value is not a dictionary", ?_⟩
              simp [checkCollisions, Val.getItem, Val.hasKey, hre, Bind.bind, Except.bind]
          | int n =>
              refine ⟨PyErr.typeError "value is not a dictionary", ?_⟩
              simp [checkCollisions, Val.getItem, Val.hasKey, hre, Bind.bind, Except.bind]
          | bool b =>
              refine ⟨PyErr.typeError "value is not a dictionary", ?_⟩
              simp [checkCollisions, Val.getItem, Val.hasKey, hre, Bind.bind, Except.bind]
          | list l =>
              refine ⟨PyErr.typeError "value is not a dictionary", ?_⟩
              simp [checkCollisions, Val.getItem, Val.hasKey, hre, Bind.bind, Except.bind]
          | obj res =>
              by_cases hc4 : (ohas res "CROPAutoUpdaterRole" || ohas res "CROPAutoUpdaterEvent" ||
                  ohas res "CROPAutoUpdaterEventPermission" ||
                  ohas res "CROPAutoUpdaterFunction") = true
              · refine ⟨.valueError "Resource logical IDs conflict with keys used by CROP", ?_⟩
                simp only [checkCollisions, Val.getItem, Val.hasKey, hre, Bind.bind, Except.bind,
                  throw, throwThe, MonadExceptOf.throw]
                simp [hc4]
              · rw [Bool.not_eq_true] at hc4
                simp only [Bool.or_eq_false_iff] at hc4
                obtain ⟨⟨⟨h1, h2⟩, h3⟩, h4⟩ := hc4
                simp only [hasCollision, keyInObjAt, hre, reservedResourceIds, List.any_cons,
                  List.any_nil, h1, h2, h3, h4, Bool.or_false, Bool.false_or] at h
                cases hpa : olookup o "Parameters" with
                | none =>
                    refine ⟨PyErr.keyError "Parameters", ?_⟩
                    simp [checkCollisions, Val.getItem, Val.hasKey, hre, hpa, Bind.bind,
                      Except.bind, pure, Except.pure, h1, h2, h3, h4]
                | some params =>
                    cases params with
                    | str s =>
                        refine ⟨PyErr.typeError "value is not a dictionary", ?_⟩
                        simp [checkCollisions, Val.getItem, Val.hasKey, hre, hpa, Bind.bind,
                          Except.bind, pure, Except.pure, h1, h2, h3, h4]
                    | int n =>
                        refine ⟨PyErr.typeError "value is not a dictionary", ?_⟩
                        simp [checkCollisions, Val.getItem, Val.hasKey, hre, hpa, Bind.bind,
                          Except.bind, pure, Except.pure, h1, h2, h3, h4]
                    | bool b =>
                        refine ⟨PyErr.typeError "value is not a dictionary", ?_⟩
                        simp [checkCollisions, Val.getItem, Val.hasKey, hre, hpa, Bind.bind,
                          Except.bind, pure, Except.pure, h1, h2, h3, h4]
                    | list l =>
                        refine ⟨PyErr.typeError "value is not a dictionary", ?_⟩
                        simp [checkCollisions, Val.getItem, Val.hasKey, hre, hpa, Bind.bind,
                          Except.bind, pure, Except.pure, h1, h2, h3, h4]
                    | obj ps =>
                        by_cases hau : ohas ps "AutoUpdates" = true
                        · refine ⟨.valueError "Param IDs conflict with Param IDs used by CROP", ?_⟩
                          simp [checkCollisions, Val.getItem, Val.hasKey, hre, hpa, Bind.bind,
                            Except.bind, pure, Except.pure, throw, throwThe, MonadExceptOf.throw,
                            h1, h2, h3, h4, hau]
                        · rw [Bool.not_eq_true] at hau
                          rw [hpa] at h
                          simp only [hau, Bool.false_or] at h
                          -- h : keyInObjAt with Conditions = true
                          have hcond : ∃ cs, olookup o "Conditions" = some (Val.obj cs) ∧
                              ohas cs "CROPAutoUpdating" = true := by
                            revert h
                            cases hco : olookup o "Conditions" with
                            | none => simp
                            | some conds =>
                                cases conds with
                                | obj cs => intro h; exact ⟨cs, rfl, h⟩
                                | str s => simp
                                | int n => simp
                                | bool b => simp
                                | list l => simp
                          obtain ⟨cs, hco, hcc⟩ := hcond
                          refine ⟨.valueError "Condition IDs conflict with Conditions IDs used by CROP", ?_⟩
                          have hhc : ohas o "Conditions" = true := by simp [ohas, hco]
                          simp [checkCollisions, Val.getItem, Val.hasKey, hre, hpa, hco, hhc,
                            Bind.bind, Except.bind, pure, Except.pure, throw, throwThe,
                            MonadExceptOf.throw, h1, h2, h3, h4, hau, hcc]

/-- Witness for C2: a template that already contains the reserved role
resource id. -/
theorem collisionGuard_witness :
    ∃ e, inject_autoupdate (Val.obj
        [("Resources", Val.obj [("CROPAutoUpdaterRole", Val.obj [])]),
         ("Parameters", Val.obj [])]) "cat" "prod" false 15 [] =
      .error (e, Val.obj
        [("Resources", Val.obj [("CROPAutoUpdaterRole", Val.obj [])]),
         ("Parameters", Val.obj [])]) :=
  collisionGuard _ "cat" "prod" false 15 [] (by decide)


/-- The collision checks succeed on any template free of the reserved
ids (with `Parameters` present and `Conditions` absent or
collision-free). -/
theorem checkCollisions_ok (o res pars conds0 : List (String × Val))
    (ho : olookup o "Resources" = some (Val.obj res))
    (hR : ohas res "CROPAutoUpdaterRole" = false)
    (hE : ohas res "CROPAutoUpdaterEvent" = false)
    (hP : ohas res "CROPAutoUpdaterEventPermission" = false)
    (hF : ohas res "CROPAutoUpdaterFunction" = false)
    (hpa : olookup o "Parameters" = some (Val.obj pars))
    (hpau : ohas pars "AutoUpdates" = false)
    (hco : (olookup o "Conditions" = none ∧ conds0 = []) ∨
           (olookup o "Conditions" = some (Val.obj conds0) ∧
            ohas conds0 "CROPAutoUpdating" = false)) :
    checkCollisions (Val.obj o) = .ok () := by
  rcases hco with ⟨hcoA, _⟩ | ⟨hcoB, hcc⟩
  · have hhc : ohas o "Conditions" = false := by simp [ohas, hcoA]
    simp [checkCollisions, Val.getItem, Val.hasKey, ho, hpa, hR, hE, hP, hF, hpau, hhc,
      Bind.bind, Except.bind, pure, Except.pure]
  · have hhc : ohas o "Conditions" = true := by simp [ohas, hcoB]
    simp [checkCollisions, Val.getItem, Val.hasKey, ho, hpa, hR, hE, hP, hF, hpau, hhc,
      hcoB, hcc, Bind.bind, Except.bind, pure, Except.pure]

theorem inject_eq_body (t : Val) (c p : String) (force : Bool) (interval : Int)
    (src : List String) (h : checkCollisions t = .ok ()) :
    inject_autoupdate t c p force interval src = injectBody t c p force interval src := by
  simp [inject_autoupdate, h]

/-- C3: under the preconditions, `force = false` adds exactly the
parameter `AutoUpdates` (default `Enable`), exactly the condition
`CROPAutoUpdating` comparing that parameter with `Enable`, and gates
each of the four injected resources on `CROPAutoUpdating`; with
`force = true` the four resources carry no `Condition` reference and
`Parameters` and `Conditions` are untouched. -/
theorem conditionalGating (o res pars conds0 : List (String × Val)) (c p : String)
    (interval : Int) (src : List String)
    (ho : olookup o "Resources" = some (Val.obj res))
    (hR : ohas res "CROPAutoUpdaterRole" = false)
    (hE : ohas res "CROPAutoUpdaterEvent" = false)
    (hP : ohas res "CROPAutoUpdaterEventPermission" = false)
    (hF : ohas res "CROPAutoUpdaterFunction" = false)
    (hpa : olookup o "Parameters" = some (Val.obj pars))
    (hpau : ohas pars "AutoUpdates" = false)
    (hco : (olookup o "Conditions" = none ∧ conds0 = []) ∨
           (olookup o "Conditions" = some (Val.obj conds0) ∧
            ohas conds0 "CROPAutoUpdating" = false))
    (hint : 1 ≤ interval) :
    (∃ o2, inject_autoupdate (Val.obj o) c p false interval src = .ok (Val.obj o2) ∧
      olookup o2 "Parameters" = some (Val.obj (pars ++ [("AutoUpdates", autoUpdatesParam)])) ∧
      olookup o2 "Conditions" =
        some (Val.obj (conds0 ++ [("CROPAutoUpdating", cropCondition)])) ∧
      (∃ res2, olookup o2 "Resources" = some (Val.obj res2) ∧
        (∀ id ∈ reservedResourceIds, ∃ entries,
          olookup res2 id = some (Val.obj entries) ∧
          olookup entries "Condition" = some (Val.str "CROPAutoUpdating")))) ∧
    (∃ o2, inject_autoupdate (Val.obj o) c p true interval src = .ok (Val.obj o2) ∧
      olookup o2 "Parameters" = some (Val.obj pars) ∧
      olookup o2 "Conditions" = olookup o "Conditions" ∧
      (∃ res2, olookup o2 "Resources" = some (Val.obj res2) ∧
        (∀ id ∈ reservedResourceIds, ∃ entries,
          olookup res2 id = some (Val.obj entries) ∧
          olookup entries "Condition" = none))) ∧
    autoUpdatesParam.getItem "Default" = .ok (Val.str "Enable") ∧
    cropCondition = Val.obj [("Fn::Equals",
      Val.list [Val.obj [("Ref", Val.str "AutoUpdates")], Val.str "Enable"])] := by
  have hchk := checkCollisions_ok o res pars conds0 ho hR hE hP hF hpa hpau hco
  refine ⟨?_, ?_, rfl, rfl⟩
  · have hIE := inject_eq_body (Val.obj o) c p false interval src hchk
    have hb := injectBody_force_false o res pars conds0 c p interval src
      ho hR hE hP hF hpa hpau hco hint
    refine ⟨oset (oset (oset (oset o "Resources" (Val.obj (res ++ [("CROPAutoUpdaterRole", roleResource), ("CROPAutoUpdaterEvent", eventResource interval), ("CROPAutoUpdaterEventPermission", permissionResource), ("CROPAutoUpdaterFunction", functionResource c p (src.map rstrip))]))) "Parameters" (Val.obj (pars ++ [("AutoUpdates", autoUpdatesParam)]))) "Conditions" (Val.obj (conds0 ++ [("CROPAutoUpdating", cropCondition)]))) "Resources" (Val.obj (res ++ [("CROPAutoUpdaterRole", Val.obj (roleResourceEntries ++ [("Condition", Val.str "CROPAutoUpdating")])), ("CROPAutoUpdaterEvent", Val.obj (eventResourceEntries interval ++ [("Condition", Val.str "CROPAutoUpdating")])), ("CROPAutoUpdaterEventPermission", Val.obj (permissionResourceEntries ++ [("Condition", Val.str "CROPAutoUpdating")])), ("CROPAutoUpdaterFunction", Val.obj (functionResourceEntries c p (src.map rstrip) ++ [("Condition", Val.str "CROPAutoUpdating")]))])), hIE.trans hb, ?_, ?_, ⟨res ++ [("CROPAutoUpdaterRole", Val.obj (roleResourceEntries ++ [("Condition", Val.str "CROPAutoUpdating")])), ("CROPAutoUpdaterEvent", Val.obj (eventResourceEntries interval ++ [("Condition", Val.str "CROPAutoUpdating")])), ("CROPAutoUpdaterEventPermission", Val.obj (permissionResourceEntries ++ [("Condition", Val.str "CROPAutoUpdating")])), ("CROPAutoUpdaterFunction", Val.obj (functionResourceEntries c p (src.map rstrip) ++ [("Condition", Val.str "CROPAutoUpdating")]))], olookup_oset_self _ _ _, ?_⟩⟩
    · rw [olookup_oset_ne _ _ _ _ (by decide), olookup_oset_ne _ _ _ _ (by decide),
        olookup_oset_self]
    · rw [olookup_oset_ne _ _ _ _ (by decide), olookup_oset_self]
    · intro id hid
      simp only [reservedResourceIds, List.mem_cons, List.not_mem_nil, or_false] at hid
      rcases hid with rfl | rfl | rfl | rfl
      · refine ⟨roleResourceEntries ++ [("Condition", Val.str "CROPAutoUpdating")], ?_, ?_⟩
        · rw [olookup_append_of_not_has _ _ _ hR]
          simp [olookup]
        · simp [roleResourceEntries, olookup]
      · refine ⟨eventResourceEntries interval ++
            [("Condition", Val.str "CROPAutoUpdating")], ?_, ?_⟩
        · rw [olookup_append_of_not_has _ _ _ hE]
          simp [olookup]
        · simp [eventResourceEntries, olookup]
      · refine ⟨permissionResourceEntries ++
            [("Condition", Val.str "CROPAutoUpdating")], ?_, ?_⟩
        · rw [olookup_append_of_not_has _ _ _ hP]
          simp [olookup]
        · simp [permissionResourceEntries, olookup]
      · refine ⟨functionResourceEntries c p (src.map rstrip) ++
            [("Condition", Val.str "CROPAutoUpdating")], ?_, ?_⟩
        · rw [olookup_append_of_not_has _ _ _ hF]
          simp [olookup]
        · simp [functionResourceEntries, olookup]
  · have hIE := inject_eq_body (Val.obj o) c p true interval src hchk
    have hb := injectBody_force_true o res c p interval src ho hR hE hP hF hint
    refine ⟨oset o "Resources" (Val.obj (res ++ [("CROPAutoUpdaterRole", roleResource), ("CROPAutoUpdaterEvent", eventResource interval), ("CROPAutoUpdaterEventPermission", permissionResource), ("CROPAutoUpdaterFunction", functionResource c p (src.map rstrip))])), hIE.trans hb, ?_, ?_, ⟨res ++ [("CROPAutoUpdaterRole", roleResource), ("CROPAutoUpdaterEvent", eventResource interval), ("CROPAutoUpdaterEventPermission", permissionResource), ("CROPAutoUpdaterFunction", functionResource c p (src.map rstrip))], olookup_oset_self _ _ _, ?_⟩⟩
    · rw [olookup_oset_ne _ _ _ _ (by decide), hpa]
    · rw [olookup_oset_ne _ _ _ _ (by decide)]
    · intro id hid
      simp only [reservedResourceIds, List.mem_cons, List.not_mem_nil, or_false] at hid
      rcases hid with rfl | rfl | rfl | rfl
      · refine ⟨roleResourceEntries, ?_, ?_⟩
        · rw [olookup_append_of_not_has _ _ _ hR]
          simp [olookup, roleResource]
        · simp [roleResourceEntries, olookup]
      · refine ⟨eventResourceEntries interval, ?_, ?_⟩
        · rw [olookup_append_of_not_has _ _ _ hE]
          simp [olookup, eventResource]
        · simp [eventResourceEntries, olookup]
      · refine ⟨permissionResourceEntries, ?_, ?_⟩
        · rw [olookup_append_of_not_has _ _ _ hP]
          simp [olookup, permissionResource]
        · simp [permissionResourceEntries, olookup]
      · refine ⟨functionResourceEntries c p (src.map rstrip), ?_, ?_⟩
        · rw [olookup_append_of_not_has _ _ _ hF]
          simp [olookup, functionResource]
        · simp [functionResourceEntries, olookup]


/-- Witness for C3 at the template `{Resources: {}, Parameters: {}}`. -/
theorem conditionalGating_witness :
    (∃ o2, inject_autoupdate (Val.obj [("Resources", Val.obj []), ("Parameters", Val.obj [])])
        "cat" "prod" false 15 [] = .ok (Val.obj o2) ∧
      olookup o2 "Parameters" = some (Val.obj [("AutoUpdates", autoUpdatesParam)]) ∧
      olookup o2 "Conditions" = some (Val.obj [("CROPAutoUpdating", cropCondition)]) ∧
      (∃ res2, olookup o2 "Resources" = some (Val.obj res2) ∧
        (∀ id ∈ reservedResourceIds, ∃ entries,
          olookup res2 id = some (Val.obj entries) ∧
          olookup entries "Condition" = some (Val.str "CROPAutoUpdating")))) ∧
    (∃ o2, inject_autoupdate (Val.obj [("Resources", Val.obj []), ("Parameters", Val.obj [])])
        "cat" "prod" true 15 [] = .ok (Val.obj o2) ∧
      olookup o2 "Parameters" = some (Val.obj []) ∧
      olookup o2 "Conditions" = none ∧
      (∃ res2, olookup o2 "Resources" = some (Val.obj res2) ∧
        (∀ id ∈ reservedResourceIds, ∃ entries,
          olookup res2 id = some (Val.obj entries) ∧
          olookup entries "Condition" = none))) ∧
    autoUpdatesParam.getItem "Default" = .ok (Val.str "Enable") ∧
    cropCondition = Val.obj [("Fn::Equals",
      Val.list [Val.obj [("Ref", Val.str "AutoUpdates")], Val.str "Enable"])] :=
  conditionalGating [("Resources", Val.obj []), ("Parameters", Val.obj [])] [] [] []
    "cat" "prod" 15 [] rfl rfl rfl rfl rfl rfl rfl (Or.inl ⟨rfl, rfl⟩) (by decide)

/-- C8: the scheduled trigger injected by `inject_autoupdate` renders
its rate expression with singular wording exactly for
`interval = 1`, plural wording for every `interval > 1`, and the call
fails with a `ValueError` for every `interval < 1`. -/
theorem intervalWording (o res pars conds0 : List (String × Val)) (c p : String)
    (force : Bool) (interval : Int) (src : List String)
    (ho : olookup o "Resources" = some (Val.obj res))
    (hR : ohas res "CROPAutoUpdaterRole" = false)
    (hE : ohas res "CROPAutoUpdaterEvent" = false)
    (hP : ohas res "CROPAutoUpdaterEventPermission" = false)
    (hF : ohas res "CROPAutoUpdaterFunction" = false)
    (hpa : olookup o "Parameters" = some (Val.obj pars))
    (hpau : ohas pars "AutoUpdates" = false)
    (hco : (olookup o "Conditions" = none ∧ conds0 = []) ∨
           (olookup o "Conditions" = some (Val.obj conds0) ∧
            ohas conds0 "CROPAutoUpdating" = false)) :
    (interval = 1 → ∃ o2 res2 ev evp,
      inject_autoupdate (Val.obj o) c p force interval src = .ok (Val.obj o2) ∧
      olookup o2 "Resources" = some (Val.obj res2) ∧
      olookup res2 "CROPAutoUpdaterEvent" = some (Val.obj ev) ∧
      olookup ev "Properties" = some (Val.obj evp) ∧
      olookup evp "ScheduleExpression" = some (Val.str "rate(1 minute)")) ∧
    (1 < interval → ∃ o2 res2 ev evp,
      inject_autoupdate (Val.obj o) c p force interval src = .ok (Val.obj o2) ∧
      olookup o2 "Resources" = some (Val.obj res2) ∧
      olookup res2 "CROPAutoUpdaterEvent" = some (Val.obj ev) ∧
      olookup ev "Properties" = some (Val.obj evp) ∧
      olookup evp "ScheduleExpression" =
        some (Val.str ("rate(" ++ toString interval ++ " minutes)"))) ∧
    (interval < 1 → ∃ st, inject_autoupdate (Val.obj o) c p force interval src =
      .error (.valueError "Cannot specify an interval less than 1 (minute)", st)) := by
  have hchk := checkCollisions_ok o res pars conds0 ho hR hE hP hF hpa hpau hco
  have hIE := inject_eq_body (Val.obj o) c p force interval src hchk
  have hmain : 1 ≤ interval → ∃ o2 res2 ev evp,
      inject_autoupdate (Val.obj o) c p force interval src = .ok (Val.obj o2) ∧
      olookup o2 "Resources" = some (Val.obj res2) ∧
      olookup res2 "CROPAutoUpdaterEvent" = some (Val.obj ev) ∧
      olookup ev "Properties" = some (Val.obj evp) ∧
      olookup evp "ScheduleExpression" =
        some (Val.str ("rate(" ++ intervalString interval ++ ")")) := by
    intro hint
    have hprops : olookup (eventResourceEntries interval) "Properties" =
        some (Val.obj ([("ScheduleExpression", Val.str ("rate(" ++ intervalString interval ++ ")")), ("State", Val.str "ENABLED"), ("Targets", Val.list [Val.obj [("Arn", Val.obj [("Fn::GetAtt", Val.list [Val.str "CROPAutoUpdaterFunction", Val.str "Arn"])]), ("Id", Val.str "autoUpdaterSchedule")]])])) := by
      simp [eventResourceEntries, olookup]
    have hsched : olookup ([("ScheduleExpression", Val.str ("rate(" ++ intervalString interval ++ ")")), ("State", Val.str "ENABLED"), ("Targets", Val.list [Val.obj [("Arn", Val.obj [("Fn::GetAtt", Val.list [Val.str "CROPAutoUpdaterFunction", Val.str "Arn"])]), ("Id", Val.str "autoUpdaterSchedule")]])]) "ScheduleExpression" =
        some (Val.str ("rate(" ++ intervalString interval ++ ")")) := by
      simp [olookup]
    cases force with
    | true =>
        have hb := injectBody_force_true o res c p interval src ho hR hE hP hF hint
        refine ⟨oset o "Resources" (Val.obj (res ++ [("CROPAutoUpdaterRole", roleResource), ("CROPAutoUpdaterEvent", eventResource interval), ("CROPAutoUpdaterEventPermission", permissionResource), ("CROPAutoUpdaterFunction", functionResource c p (src.map rstrip))])), res ++ [("CROPAutoUpdaterRole", roleResource), ("CROPAutoUpdaterEvent", eventResource interval), ("CROPAutoUpdaterEventPermission", permissionResource), ("CROPAutoUpdaterFunction", functionResource c p (src.map rstrip))], eventResourceEntries interval, [("ScheduleExpression", Val.str ("rate(" ++ intervalString interval ++ ")")), ("State", Val.str "ENABLED"), ("Targets", Val.list [Val.obj [("Arn", Val.obj [("Fn::GetAtt", Val.list [Val.str "CROPAutoUpdaterFunction", Val.str "Arn"])]), ("Id", Val.str "autoUpdaterSchedule")]])],
          hIE.trans hb, olookup_oset_self _ _ _, ?_, hprops, hsched⟩
        rw [olookup_append_of_not_has _ _ _ hE]
        simp [olookup, eventResource]
    | false =>
        have hb := injectBody_force_false o res pars conds0 c p interval src
          ho hR hE hP hF hpa hpau hco hint
        have hev : olookup (res ++ [("CROPAutoUpdaterRole", Val.obj (roleResourceEntries ++ [("Condition", Val.str "CROPAutoUpdating")])), ("CROPAutoUpdaterEvent", Val.obj (eventResourceEntries interval ++ [("Condition", Val.str "CROPAutoUpdating")])), ("CROPAutoUpdaterEventPermission", Val.obj (permissionResourceEntries ++ [("Condition", Val.str "CROPAutoUpdating")])), ("CROPAutoUpdaterFunction", Val.obj (functionResourceEntries c p (src.map rstrip) ++ [("Condition", Val.str "CROPAutoUpdating")]))]) "CROPAutoUpdaterEvent" =
            some (Val.obj (eventResourceEntries interval ++
              [("Condition", Val.str "CROPAutoUpdating")])) := by
          rw [olookup_append_of_not_has _ _ _ hE]
          simp [olookup]
        have hprops2 : olookup (eventResourceEntries interval ++
            [("Condition", Val.str "CROPAutoUpdating")]) "Properties" =
            some (Val.obj ([("ScheduleExpression", Val.str ("rate(" ++ intervalString interval ++ ")")), ("State", Val.str "ENABLED"), ("Targets", Val.list [Val.obj [("Arn", Val.obj [("Fn::GetAtt", Val.list [Val.str "CROPAutoUpdaterFunction", Val.str "Arn"])]), ("Id", Val.str "autoUpdaterSchedule")]])])) := by
          simp [eventResourceEntries, olookup]
        exact ⟨oset (oset (oset (oset o "Resources" (Val.obj (res ++ [("CROPAutoUpdaterRole", roleResource), ("CROPAutoUpdaterEvent", eventResource interval), ("CROPAutoUpdaterEventPermission", permissionResource), ("CROPAutoUpdaterFunction", functionResource c p (src.map rstrip))]))) "Parameters" (Val.obj (pars ++ [("AutoUpdates", autoUpdatesParam)]))) "Conditions" (Val.obj (conds0 ++ [("CROPAutoUpdating", cropCondition)]))) "Resources" (Val.obj (res ++ [("CROPAutoUpdaterRole", Val.obj (roleResourceEntries ++ [("Condition", Val.str "CROPAutoUpdating")])), ("CROPAutoUpdaterEvent", Val.obj (eventResourceEntries interval ++ [("Condition", Val.str "CROPAutoUpdating")])), ("CROPAutoUpdaterEventPermission", Val.obj (permissionResourceEntries ++ [("Condition", Val.str "CROPAutoUpdating")])), ("CROPAutoUpdaterFunction", Val.obj (functionResourceEntries c p (src.map rstrip) ++ [("Condition", Val.str "CROPAutoUpdating")]))])), res ++ [("CROPAutoUpdaterRole", Val.obj (roleResourceEntries ++ [("Condition", Val.str "CROPAutoUpdating")])), ("CROPAutoUpdaterEvent", Val.obj (eventResourceEntries interval ++ [("Condition", Val.str "CROPAutoUpdating")])), ("CROPAutoUpdaterEventPermission", Val.obj (permissionResourceEntries ++ [("Condition", Val.str "CROPAutoUpdating")])), ("CROPAutoUpdaterFunction", Val.obj (functionResourceEntries c p (src.map rstrip) ++ [("Condition", Val.str "CROPAutoUpdating")]))],
          eventResourceEntries interval ++ [("Condition", Val.str "CROPAutoUpdating")],
          [("ScheduleExpression", Val.str ("rate(" ++ intervalString interval ++ ")")), ("State", Val.str "ENABLED"), ("Targets", Val.list [Val.obj [("Arn", Val.obj [("Fn::GetAtt", Val.list [Val.str "CROPAutoUpdaterFunction", Val.str "Arn"])]), ("Id", Val.str "autoUpdaterSchedule")]])], hIE.trans hb, olookup_oset_self _ _ _, hev, hprops2, hsched⟩
  refine ⟨?_, ?_, ?_⟩
  · intro h1v
    obtain ⟨o2, res2, ev, evp, ha, hb, hc, hd, he⟩ := hmain (by omega)
    refine ⟨o2, res2, ev, evp, ha, hb, hc, hd, ?_⟩
    rw [he]
    subst h1v
    rfl
  · intro hgt
    obtain ⟨o2, res2, ev, evp, ha, hb, hc, hd, he⟩ := hmain (by omega)
    refine ⟨o2, res2, ev, evp, ha, hb, hc, hd, ?_⟩
    rw [he]
    have hplural : intervalString interval = toString interval ++ " minutes" := by
      rw [intervalString, if_neg (by omega)]
    rw [hplural, ← String.append_assoc, String.append_assoc]
    rfl
  · intro hlt
    have h1 : (Val.obj o).setItem2 "Resources" "CROPAutoUpdaterRole" roleResource =
        .ok (Val.obj (oset o "Resources"
          (Val.obj (res ++ [("CROPAutoUpdaterRole", roleResource)])))) := by
      rw [setItem2_obj _ _ _ _ _ ho, oset_of_not_has _ _ _ hR]
    refine ⟨Val.obj (oset o "Resources"
      (Val.obj (res ++ [("CROPAutoUpdaterRole", roleResource)]))), ?_⟩
    rw [hIE]
    simp only [injectBody, h1, withState, Bind.bind, Except.bind, hlt, if_true, throw,
      throwThe, MonadExceptOf.throw]


/-- Witness for C8 at `interval = 1` on the template
`{Resources: {}, Parameters: {}}`. -/
theorem intervalWording_witness :
    ((1 : Int) = 1 → ∃ o2 res2 ev evp,
      inject_autoupdate (Val.obj [("Resources", Val.obj []), ("Parameters", Val.obj [])])
        "cat" "prod" false 1 [] = .ok (Val.obj o2) ∧
      olookup o2 "Resources" = some (Val.obj res2) ∧
      olookup res2 "CROPAutoUpdaterEvent" = some (Val.obj ev) ∧
      olookup ev "Properties" = some (Val.obj evp) ∧
      olookup evp "ScheduleExpression" = some (Val.str "rate(1 minute)")) ∧
    ((1 : Int) < 1 → ∃ o2 res2 ev evp,
      inject_autoupdate (Val.obj [("Resources", Val.obj []), ("Parameters", Val.obj [])])
        "cat" "prod" false 1 [] = .ok (Val.obj o2) ∧
      olookup o2 "Resources" = some (Val.obj res2) ∧
      olookup res2 "CROPAutoUpdaterEvent" = some (Val.obj ev) ∧
      olookup ev "Properties" = some (Val.obj evp) ∧
      olookup evp "ScheduleExpression" =
        some (Val.str ("rate(" ++ toString (1 : Int) ++ " minutes)"))) ∧
    ((1 : Int) < 1 → ∃ st,
      inject_autoupdate (Val.obj [("Resources", Val.obj []), ("Parameters", Val.obj [])])
        "cat" "prod" false 1 [] =
      .error (.valueError "Cannot specify an interval less than 1 (minute)", st)) :=
  intervalWording [("Resources", Val.obj []), ("Parameters", Val.obj [])] [] [] []
    "cat" "prod" false 1 [] rfl rfl rfl rfl rfl rfl rfl (Or.inl ⟨rfl, rfl⟩)

/-- C9: a template without a top-level `Parameters` key makes
`inject_autoupdate` raise `KeyError "Parameters"` during the
parameter-collision check even though no reserved id collides, while
the same template with an empty `Parameters` mapping added (and
`Conditions` still absent) injects successfully. -/
theorem missingParametersKeyError (o res : List (String × Val)) (c p : String) (force : Bool)
    (interval : Int) (src : List String)
    (ho : olookup o "Resources" = some (Val.obj res))
    (hR : ohas res "CROPAutoUpdaterRole" = false)
    (hE : ohas res "CROPAutoUpdaterEvent" = false)
    (hP : ohas res "CROPAutoUpdaterEventPermission" = false)
    (hF : ohas res "CROPAutoUpdaterFunction" = false)
    (hnp : olookup o "Parameters" = none)
    (hcoA : olookup o "Conditions" = none)
    (hint : 1 ≤ interval) :
    inject_autoupdate (Val.obj o) c p force interval src =
      .error (.keyError "Parameters", Val.obj o) ∧
    (∃ t', inject_autoupdate (Val.obj (oset o "Parameters" (Val.obj []))) c p false
        interval src = .ok t') := by
  constructor
  · have hchk : checkCollisions (Val.obj o) = .error (.keyError "Parameters") := by
      simp [checkCollisions, Val.getItem, Val.hasKey, ho, hR, hE, hP, hF, hnp,
        Bind.bind, Except.bind, pure, Except.pure]
    simp [inject_autoupdate, hchk]
  · have ho2 : olookup (oset o "Parameters" (Val.obj [])) "Resources" = some (Val.obj res) := by
      rw [olookup_oset_ne _ _ _ _ (by decide), ho]
    have hpa2 : olookup (oset o "Parameters" (Val.obj [])) "Parameters" =
        some (Val.obj ([] : List (String × Val))) := olookup_oset_self _ _ _
    have hco2 : olookup (oset o "Parameters" (Val.obj [])) "Conditions" = none := by
      rw [olookup_oset_ne _ _ _ _ (by decide), hcoA]
    have hchk2 := checkCollisions_ok (oset o "Parameters" (Val.obj [])) res [] []
      ho2 hR hE hP hF hpa2 (by simp [ohas, olookup]) (Or.inl ⟨hco2, rfl⟩)
    have hbody := injectBody_force_false (oset o "Parameters" (Val.obj [])) res [] [] c p
      interval src ho2 hR hE hP hF hpa2 (by simp [ohas, olookup]) (Or.inl ⟨hco2, rfl⟩) hint
    exact ⟨_, (inject_eq_body _ _ _ _ _ _ hchk2).trans hbody⟩


/-- Witness for C9 at the template `{Resources: {}}`. -/
theorem missingParametersKeyError_witness :
    inject_autoupdate (Val.obj [("Resources", Val.obj [])]) "cat" "prod" false 15 [] =
      .error (.keyError "Parameters", Val.obj [("Resources", Val.obj [])]) ∧
    (∃ t', inject_autoupdate (Val.obj [("Resources", Val.obj []), ("Parameters", Val.obj [])])
        "cat" "prod" false 15 [] = .ok t') :=
  missingParametersKeyError [("Resources", Val.obj [])] [] "cat" "prod" false 15 []
    rfl rfl rfl rfl rfl rfl rfl (by decide)

/-- C10: when `inject_autoupdate` fails on `interval < 1`, the template
has already been mutated: the returned document carries the injected
`CROPAutoUpdaterRole` resource, so the interval failure is not atomic. -/
theorem intervalNotAtomic (o res pars conds0 : List (String × Val)) (c p : String)
    (force : Bool) (interval : Int) (src : List String)
    (ho : olookup o "Resources" = some (Val.obj res))
    (hR : ohas res "CROPAutoUpdaterRole" = false)
    (hE : ohas res "CROPAutoUpdaterEvent" = false)
    (hP : ohas res "CROPAutoUpdaterEventPermission" = false)
    (hF : ohas res "CROPAutoUpdaterFunction" = false)
    (hpa : olookup o "Parameters" = some (Val.obj pars))
    (hpau : ohas pars "AutoUpdates" = false)
    (hco : (olookup o "Conditions" = none ∧ conds0 = []) ∨
           (olookup o "Conditions" = some (Val.obj conds0) ∧
            ohas conds0 "CROPAutoUpdating" = false))
    (hlt : interval < 1) :
    inject_autoupdate (Val.obj o) c p force interval src =
      .error (.valueError "Cannot specify an interval less than 1 (minute)",
        Val.obj (oset o "Resources"
          (Val.obj (res ++ [("CROPAutoUpdaterRole", roleResource)])))) ∧
    ohas (res ++ [("CROPAutoUpdaterRole", roleResource)]) "CROPAutoUpdaterRole" = true := by
  have hchk := checkCollisions_ok o res pars conds0 ho hR hE hP hF hpa hpau hco
  have h1 : (Val.obj o).setItem2 "Resources" "CROPAutoUpdaterRole" roleResource =
      .ok (Val.obj (oset o "Resources" (Val.obj (res ++ [("CROPAutoUpdaterRole", roleResource)])))) := by
    rw [setItem2_obj _ _ _ _ _ ho, oset_of_not_has _ _ _ hR]
  constructor
  · rw [inject_eq_body _ _ _ _ _ _ hchk]
    simp only [injectBody, h1, withState, Bind.bind, Except.bind, hlt, if_true, throw,
      throwThe, MonadExceptOf.throw]
  · rw [ohas_append]
    simp [ohas, olookup]

/-- Witness for C10 at `interval = 0` on the template
`{Resources: {}, Parameters: {}}`. -/
theorem intervalNotAtomic_witness :
    inject_autoupdate (Val.obj [("Resources", Val.obj []), ("Parameters", Val.obj [])])
        "cat" "prod" false 0 [] =
      .error (.valueError "Cannot specify an interval less than 1 (minute)",
        Val.obj [("Resources", Val.obj [("CROPAutoUpdaterRole", roleResource)]),
                 ("Parameters", Val.obj [])]) ∧
    ohas [("CROPAutoUpdaterRole", roleResource)] "CROPAutoUpdaterRole" = true :=
  intervalNotAtomic [("Resources", Val.obj []), ("Parameters", Val.obj [])] [] [] []
    "cat" "prod" false 0 [] rfl rfl rfl rfl rfl rfl rfl (Or.inl ⟨rfl, rfl⟩) (by decide)


/-- Is the resource of the function-compute type checked at line 25 of
`filters.py`? -/
def isFnResource (r : Val) : Bool :=
  match r with
  | .obj es =>
      match olookup es "Type" with
      | some (.str s) => s = "AWS::Lambda::Function"
      | _ => false
  | _ => false

/-- The `Properties.Code.S3Key` string of a resource, when the whole
path exists (the lookups performed at line 29 of `filters.py`). -/
def fnS3Key (r : Val) : Option String :=
  match r with
  | .obj es =>
      match olookup es "Properties" with
      | some (.obj props) =>
          match olookup props "Code" with
          | some (.obj code) =>
              match olookup code "S3Key" with
              | some (.str s) => some s
              | _ => none
          | _ => none
      | _ => none
  | _ => none

/-- A resource with its `Properties.Code` value replaced in place
(line 43 of `filters.py`). -/
def setCode (r : Val) (code : Val) : Val :=
  match r with
  | .obj es =>
      match olookup es "Properties" with
      | some (.obj props) => .obj (oset es "Properties" (.obj (oset props "Code" code)))
      | _ => r
  | _ => r

/-- The effect of one loop iteration of `replace_function_artifacts`
on a resource value, as established by `rewriteResource_ok`. -/
def rewriteSpec (b : String) (m : List (String × AssetEntry)) (r : Val) : Val :=
  if isFnResource r then
    match fnS3Key r with
    | some s =>
        match olookup m (basename s) with
        | some entry => setCode r (newCode b entry)
        | none => r
    | none => r
  else r

/-- Well-formedness of a resource for the rewrite loop: it is a
dictionary with a `Type` key, and a function resource additionally has
the `Properties.Code.S3Key` string path. -/
def resourceWF (r : Val) : Bool :=
  match r with
  | .obj es => ohas es "Type" && (!(isFnResource (Val.obj es)) || (fnS3Key (Val.obj es)).isSome)
  | _ => false

/-- Is the asset map total on this resource: a non-function resource is
vacuously covered, a function resource needs its `S3Key` base name in
the map. -/
def fnCovered (m : List (String × AssetEntry)) (r : Val) : Bool :=
  !(isFnResource r) ||
    (match fnS3Key r with
     | some s => ohas m (basename s)
     | none => false)

/-- On a well-formed, covered resource the loop body succeeds and
returns exactly `rewriteSpec`. -/
theorem rewriteResource_ok (b : String) (m : List (String × AssetEntry)) (r : Val)
    (hwf : resourceWF r = true) (hcov : fnCovered m r = true) :
    rewriteResource b m r = .ok (rewriteSpec b m r) := by
  cases r with
  | str s => simp [resourceWF] at hwf
  | int n => simp [resourceWF] at hwf
  | bool bb => simp [resourceWF] at hwf
  | list l => simp [resourceWF] at hwf
  | obj es =>
      simp only [resourceWF, Bool.and_eq_true, Bool.or_eq_true, Bool.not_eq_true] at hwf
      obtain ⟨hty, hsk⟩ := hwf
      rw [ohas] at hty
      cases hto : olookup es "Type" with
      | none => rw [hto] at hty; simp at hty
      | some ty =>
          by_cases hfn : isFnResource (Val.obj es) = true
          · have hsome : (fnS3Key (Val.obj es)).isSome = true := by
              rcases hsk with h | h
              · rw [hfn] at h; simp at h
              · exact h
            cases hk : fnS3Key (Val.obj es) with
            | none => rw [hk] at hsome; simp at hsome
            | some s =>
                have htyfn : olookup es "Type" = some (Val.str "AWS::Lambda::Function") := by
                  rw [isFnResource, hto] at hfn
                  cases ty with
                  | str u =>
                      simp only [decide_eq_true_eq] at hfn
                      rw [hto, hfn]
                  | int n => simp at hfn
                  | bool bb => simp at hfn
                  | list l => simp at hfn
                  | obj oo => simp at hfn
                have hcov2 : ohas m (basename s) = true := by
                  rw [fnCovered, hfn, hk] at hcov
                  simpa using hcov
                have hkeep := hk
                rw [fnS3Key] at hk
                cases hp : olookup es "Properties" with
                | none => rw [hp] at hk; simp at hk
                | some props =>
                    rw [hp] at hk
                    cases props with
                    | str u => simp at hk
                    | int n => simp at hk
                    | bool bb => simp at hk
                    | list l => simp at hk
                    | obj ps =>
                        simp only [] at hk
                        cases hc : olookup ps "Code" with
                        | none => rw [hc] at hk; simp at hk
                        | some code =>
                            rw [hc] at hk
                            cases code with
                            | str u => simp at hk
                            | int n => simp at hk
                            | bool bb => simp at hk
                            | list l => simp at hk
                            | obj cs =>
                                simp only [] at hk
                                cases hs3 : olookup cs "S3Key" with
                                | none => rw [hs3] at hk; simp at hk
                                | some s3 =>
                                    rw [hs3] at hk
                                    cases s3 with
                                    | str sk =>
                                        simp only [Option.some.injEq] at hk
                                        subst hk
                                        rw [ohas] at hcov2
                                        cases hm : olookup m (basename sk) with
                                        | none => rw [hm] at hcov2; simp at hcov2
                                        | some entry =>
                                            simp only [rewriteSpec, if_pos hfn, hkeep, hm,
                                              setCode, hp]
                                            simp [rewriteResource, Val.getItem, htyfn, hp, hc, hs3,
                                              hm, Val.setItem, Bind.bind, Except.bind, pure,
                                              Except.pure]
                                    | int n => simp at hk
                                    | bool bb => simp at hk
                                    | list l => simp at hk
                                    | obj oo => simp at hk
          · rw [Bool.not_eq_true] at hfn
            have hres : rewriteSpec b m (Val.obj es) = Val.obj es := by
              rw [rewriteSpec, hfn]
              simp
            rw [hres]
            rw [isFnResource, hto] at hfn
            simp only [rewriteResource, Val.getItem, hto, Bind.bind, Except.bind, pure, Except.pure]
            cases ty with
            | str u =>
                simp only [decide_eq_true_eq] at hfn
                simp [hfn]
            | int n => simp
            | bool bb => simp
            | list l => simp
            | obj oo => simp

/-- On a well-formed function resource whose base name is missing from
the map, the loop body raises `KeyError` with that base name. -/
theorem rewriteResource_err (b : String) (m : List (String × AssetEntry)) (r : Val)
    (hwf : resourceWF r = true) (hcov : fnCovered m r = false) :
    ∃ s, fnS3Key r = some s ∧ rewriteResource b m r = .error (.keyError (basename s)) := by
  cases r with
  | str s => simp [resourceWF] at hwf
  | int n => simp [resourceWF] at hwf
  | bool bb => simp [resourceWF] at hwf
  | list l => simp [resourceWF] at hwf
  | obj es =>
      simp only [resourceWF, Bool.and_eq_true, Bool.or_eq_true, Bool.not_eq_true] at hwf
      obtain ⟨hty, hsk⟩ := hwf
      have hfn : isFnResource (Val.obj es) = true := by
        by_contra hcon
        rw [Bool.not_eq_true] at hcon
        rw [fnCovered, hcon] at hcov
        simp at hcov
      have hsome : (fnS3Key (Val.obj es)).isSome = true := by
        rcases hsk with h | h
        · rw [hfn] at h; simp at h
        · exact h
      cases hk : fnS3Key (Val.obj es) with
      | none => rw [hk] at hsome; simp at hsome
      | some s =>
          refine ⟨s, rfl, ?_⟩
          have hcov2 : ohas m (basename s) = false := by
            rw [fnCovered, hfn, hk] at hcov
            simpa using hcov
          have htyfn : olookup es "Type" = some (Val.str "AWS::Lambda::Function") := by
            rw [isFnResource] at hfn
            cases hto : olookup es "Type" with
            | none => rw [hto] at hfn; simp at hfn
            | some ty =>
                rw [hto] at hfn
                cases ty with
                | str u =>
                    simp only [decide_eq_true_eq] at hfn
                    rw [hfn]
                | int n => simp at hfn
                | bool bb => simp at hfn
                | list l => simp at hfn
                | obj oo => simp at hfn
          rw [fnS3Key] at hk
          cases hp : olookup es "Properties" with
          | none => rw [hp] at hk; simp at hk
          | some props =>
              rw [hp] at hk
              cases props with
              | str u => simp at hk
              | int n => simp at hk
              | bool bb => simp at hk
              | list l => simp at hk
              | obj ps =>
                  simp only [] at hk
                  cases hc : olookup ps "Code" with
                  | none => rw [hc] at hk; simp at hk
                  | some code =>
                      rw [hc] at hk
                      cases code with
                      | str u => simp at hk
                      | int n => simp at hk
                      | bool bb => simp at hk
                      | list l => simp at hk
                      | obj cs =>
                          simp only [] at hk
                          cases hs3 : olookup cs "S3Key" with
                          | none => rw [hs3] at hk; simp at hk
                          | some s3 =>
                              rw [hs3] at hk
                              cases s3 with
                              | str sk =>
                                  simp only [Option.some.injEq] at hk
                                  subst hk
                                  rw [ohas] at hcov2
                                  cases hm : olookup m (basename sk) with
                                  | some entry => rw [hm] at hcov2; simp at hcov2
                                  | none =>
                                      simp [rewriteResource, Val.getItem, htyfn, hp, hc, hs3, hm,
                                        Bind.bind, Except.bind, pure, Except.pure, throw, throwThe,
                                        MonadExceptOf.throw]
                              | int n => simp at hk
                              | bool bb => simp at hk
                              | list l => simp at hk
                              | obj oo => simp at hk



/-- The rewrite loop over all resource entries, total-coverage case. -/
theorem replaceResources_ok (b : String) (m : List (String × AssetEntry))
    (entries : List (String × Val))
    (hwf : ∀ p ∈ entries, resourceWF p.2 = true)
    (hcov : ∀ p ∈ entries, fnCovered m p.2 = true) :
    replaceResources b m entries = .ok (entries.map fun p => (p.1, rewriteSpec b m p.2)) := by
  induction entries with
  | nil => simp [replaceResources]
  | cons hd tl ih =>
      obtain ⟨id, r⟩ := hd
      have hhd := rewriteResource_ok b m r (hwf (id, r) (by simp)) (hcov (id, r) (by simp))
      have hrec := ih (fun p hp => hwf p (List.mem_cons_of_mem _ hp))
        (fun p hp => hcov p (List.mem_cons_of_mem _ hp))
      simp [replaceResources, hhd, hrec]

/-- The rewrite loop with some uncovered function resource raises a
`KeyError`. -/
theorem replaceResources_err (b : String) (m : List (String × AssetEntry))
    (entries : List (String × Val))
    (hwf : ∀ p ∈ entries, resourceWF p.2 = true)
    (hex : ∃ p ∈ entries, fnCovered m p.2 = false) :
    ∃ name rest2, replaceResources b m entries = .error (.keyError name, rest2) := by
  induction entries with
  | nil => simp at hex
  | cons hd tl ih =>
      obtain ⟨id, r⟩ := hd
      by_cases hhc : fnCovered m r = true
      · have hhd := rewriteResource_ok b m r (hwf (id, r) (by simp)) hhc
        have hextl : ∃ p ∈ tl, fnCovered m p.2 = false := by
          obtain ⟨q, hq, hqf⟩ := hex
          rcases List.mem_cons.mp hq with rfl | hq2
          · rw [hhc] at hqf
            cases hqf
          · exact ⟨q, hq2, hqf⟩
        obtain ⟨name, rest2, herr⟩ := ih (fun p hp => hwf p (List.mem_cons_of_mem _ hp)) hextl
        exact ⟨name, (id, rewriteSpec b m r) :: rest2, by simp [replaceResources, hhd, herr]⟩
      · rw [Bool.not_eq_true] at hhc
        obtain ⟨s, hks, herr⟩ := rewriteResource_err b m r (hwf (id, r) (by simp)) hhc
        exact ⟨basename s, (id, r) :: tl, by simp [replaceResources, herr]⟩

/-- C4: with the asset map covering every function resource,
`replace_function_artifacts` replaces each function resource's
`Properties.Code` with the bucket/key (and version when the map entry
is a pair) mapping and passes every non-function resource through
unchanged; with a base name missing from the map it raises a
`KeyError`. -/
theorem assetRewrite (o res : List (String × Val)) (b : String)
    (m : List (String × AssetEntry))
    (ho : olookup o "Resources" = some (Val.obj res))
    (hwf : ∀ p ∈ res, resourceWF p.2 = true) :
    ((∀ p ∈ res, fnCovered m p.2 = true) →
      replace_function_artifacts (Val.obj o) b m =
        .ok (Val.obj (oset o "Resources"
          (Val.obj (res.map fun p => (p.1, rewriteSpec b m p.2)))))) ∧
    ((∃ p ∈ res, fnCovered m p.2 = false) →
      ∃ name st, replace_function_artifacts (Val.obj o) b m =
        .error (.keyError name, st)) ∧
    (∀ r : Val, isFnResource r = false → rewriteSpec b m r = r) ∧
    (∀ k : String, newCode b (.key k) =
      Val.obj [("S3Bucket", Val.str b), ("S3Key", Val.str k)]) ∧
    (∀ k v : String, newCode b (.keyVer k v) =
      Val.obj [("S3Bucket", Val.str b), ("S3Key", Val.str k),
        ("S3ObjectVersion", Val.str v)]) := by
  refine ⟨?_, ?_, ?_, fun k => rfl, fun k v => rfl⟩
  · intro hcov
    have h := replaceResources_ok b m res hwf hcov
    simp [replace_function_artifacts, ho, h]
  · intro hex
    obtain ⟨name, rest2, herr⟩ := replaceResources_err b m res hwf hex
    refine ⟨name, Val.obj (oset o "Resources" (Val.obj rest2)), ?_⟩
    simp [replace_function_artifacts, ho, herr]
  · intro r hr
    simp [rewriteSpec, hr]


/-- Witness for C4 on a template with one function resource (code key
`a/b/f1.zip`) and one bucket resource, and the map `{f1.zip: k1}`. -/
theorem assetRewrite_witness :
    ((∀ p ∈ [("F1", Val.obj [("Type", Val.str "AWS::Lambda::Function"),
          ("Properties", Val.obj [("Code", Val.obj [("S3Bucket", Val.str "old"),
            ("S3Key", Val.str "a/b/f1.zip")])])]),
        ("R1", Val.obj [("Type", Val.str "AWS::S3::Bucket")])],
        fnCovered [("f1.zip", AssetEntry.key "k1")] p.2 = true) →
      replace_function_artifacts (Val.obj [("Resources", Val.obj
          [("F1", Val.obj [("Type", Val.str "AWS::Lambda::Function"),
            ("Properties", Val.obj [("Code", Val.obj [("S3Bucket", Val.str "old"),
              ("S3Key", Val.str "a/b/f1.zip")])])]),
           ("R1", Val.obj [("Type", Val.str "AWS::S3::Bucket")])])])
          "newbkt" [("f1.zip", AssetEntry.key "k1")] =
        .ok (Val.obj (oset [("Resources", Val.obj
          [("F1", Val.obj [("Type", Val.str "AWS::Lambda::Function"),
            ("Properties", Val.obj [("Code", Val.obj [("S3Bucket", Val.str "old"),
              ("S3Key", Val.str "a/b/f1.zip")])])]),
           ("R1", Val.obj [("Type", Val.str "AWS::S3::Bucket")])])] "Resources"
          (Val.obj ([("F1", Val.obj [("Type", Val.str "AWS::Lambda::Function"),
              ("Properties", Val.obj [("Code", Val.obj [("S3Bucket", Val.str "old"),
                ("S3Key", Val.str "a/b/f1.zip")])])]),
             ("R1", Val.obj [("Type", Val.str "AWS::S3::Bucket")])].map
            fun p => (p.1, rewriteSpec "newbkt" [("f1.zip", AssetEntry.key "k1")] p.2)))))) ∧
    ((∃ p ∈ [("F1", Val.obj [("Type", Val.str "AWS::Lambda::Function"),
          ("Properties", Val.obj [("Code", Val.obj [("S3Bucket", Val.str "old"),
            ("S3Key", Val.str "a/b/f1.zip")])])]),
        ("R1", Val.obj [("Type", Val.str "AWS::S3::Bucket")])],
        fnCovered [("f1.zip", AssetEntry.key "k1")] p.2 = false) →
      ∃ name st, replace_function_artifacts (Val.obj [("Resources", Val.obj
          [("F1", Val.obj [("Type", Val.str "AWS::Lambda::Function"),
            ("Properties", Val.obj [("Code", Val.obj [("S3Bucket", Val.str "old"),
              ("S3Key", Val.str "a/b/f1.zip")])])]),
           ("R1", Val.obj [("Type", Val.str "AWS::S3::Bucket")])])])
          "newbkt" [("f1.zip", AssetEntry.key "k1")] = .error (.keyError name, st)) ∧
    (∀ r : Val, isFnResource r = false →
      rewriteSpec "newbkt" [("f1.zip", AssetEntry.key "k1")] r = r) ∧
    (∀ k : String, newCode "newbkt" (.key k) =
      Val.obj [("S3Bucket", Val.str "newbkt"), ("S3Key", Val.str k)]) ∧
    (∀ k v : String, newCode "newbkt" (.keyVer k v) =
      Val.obj [("S3Bucket", Val.str "newbkt"), ("S3Key", Val.str k),
        ("S3ObjectVersion", Val.str v)]) :=
  assetRewrite [("Resources", Val.obj
      [("F1", Val.obj [("Type", Val.str "AWS::Lambda::Function"),
        ("Properties", Val.obj [("Code", Val.obj [("S3Bucket", Val.str "old"),
          ("S3Key", Val.str "a/b/f1.zip")])])]),
       ("R1", Val.obj [("Type", Val.str "AWS::S3::Bucket")])])]
    [("F1", Val.obj [("Type", Val.str "AWS::Lambda::Function"),
        ("Properties", Val.obj [("Code", Val.obj [("S3Bucket", Val.str "old"),
          ("S3Key", Val.str "a/b/f1.zip")])])]),
     ("R1", Val.obj [("Type", Val.str "AWS::S3::Bucket")])]
    "newbkt" [("f1.zip", AssetEntry.key "k1")] rfl (by decide)

end Crop
